import Mathlib

/-!
Verification of the MedVault claim-coding pipeline.

This file gives a shallow embedding of the extraction / coding / claim
assembly / validation pipeline (src/core/extraction.py, src/core/coding.py,
src/cms1500/schema.py, src/cms1500/generator.py, src/cms1500/rules.py) and
proves or refutes the behavioural claims about it.

Modelling conventions:
* Python floats are modelled as rationals; none of the properties at stake
  depends on binary rounding.
* Python dicts are modelled as association lists with CPython semantics:
  assigning to an existing key updates the value in place (the insertion
  position is kept), assigning to a fresh key appends the pair at the end.
* pydantic v2 construction (the code uses `model_dump` and `pattern=` so it
  runs under pydantic v2) is modelled by explicit constructor functions
  returning `Except`; v1-style `@validator`s do not run on default values,
  which the constructor models faithfully.
-/

namespace MedVault

/-- CPython dict assignment on an association list: update in place when the
key exists, append otherwise. -/
def dictInsert {κ α : Type} [DecidableEq κ] (m : List (κ × α)) (k : κ) (v : α) :
    List (κ × α) :=
  match m with
  | [] => [(k, v)]
  | (k', v') :: rest =>
      if k' = k then (k', v) :: rest else (k', v') :: dictInsert rest k v

/-- Dict lookup on an association list (first binding wins; bindings are
unique by construction of `dictInsert`). -/
def dictFind? {κ α : Type} [DecidableEq κ] (m : List (κ × α)) (k : κ) : Option α :=
  match m with
  | [] => none
  | (k', v') :: rest => if k' = k then some v' else dictFind? rest k

/-- Dict membership test, mirroring the Python `in` operator on dict keys. -/
def dictMem {κ α : Type} [DecidableEq κ] (m : List (κ × α)) (k : κ) : Bool :=
  (dictFind? m k).isSome

theorem dictInsert_of_forall_ne {κ α : Type} [DecidableEq κ]
    (m : List (κ × α)) (k : κ) (v : α) (h : ∀ p ∈ m, p.1 ≠ k) :
    dictInsert m k v = m ++ [(k, v)] := by
  induction m with
  | nil => rfl
  | cons p rest ih =>
      obtain ⟨k', v'⟩ := p
      have hk : k' ≠ k := h (k', v') (List.mem_cons_self _ _)
      simp only [dictInsert, if_neg hk, List.cons_append, List.cons.injEq, true_and]
      exact ih (fun q hq => h q (List.mem_cons_of_mem _ hq))

theorem foldl_dictInsert_eq_append {κ α : Type} [DecidableEq κ]
    (ps : List (κ × α)) (m : List (κ × α))
    (hnd : (ps.map Prod.fst).Nodup)
    (hdisj : ∀ p ∈ ps, ∀ q ∈ m, q.1 ≠ p.1) :
    ps.foldl (fun acc p => dictInsert acc p.1 p.2) m = m ++ ps := by
  induction ps generalizing m with
  | nil => simp
  | cons p rest ih =>
      obtain ⟨k, v⟩ := p
      simp only [List.map_cons, List.nodup_cons] at hnd
      have h1 : dictInsert m k v = m ++ [(k, v)] :=
        dictInsert_of_forall_ne m k v
          (fun q hq => hdisj (k, v) (List.mem_cons_self _ _) q hq)
      simp only [List.foldl_cons, h1]
      rw [ih (m ++ [(k, v)]) hnd.2]
      · simp
      · intro q hq r hr
        rcases List.mem_append.mp hr with hr | hr
        · exact hdisj q (List.mem_cons_of_mem _ hq) r hr
        · simp only [List.mem_singleton] at hr
          subst hr
          intro hcontra
          apply hnd.1
          have : q.1 ∈ rest.map Prod.fst := List.mem_map_of_mem Prod.fst hq
          simpa [← hcontra] using this

theorem dictFind?_eq_none {κ α : Type} [DecidableEq κ]
    (m : List (κ × α)) (k : κ) (h : ∀ p ∈ m, p.1 ≠ k) :
    dictFind? m k = none := by
  induction m with
  | nil => rfl
  | cons p rest ih =>
      obtain ⟨k', v'⟩ := p
      have hk : k' ≠ k := h (k', v') (List.mem_cons_self _ _)
      simp only [dictFind?, if_neg hk]
      exact ih (fun q hq => h q (List.mem_cons_of_mem _ hq))

/-- Procedure / diagnosis metadata carried by a `CodeSuggestion`
(`metadata: Optional[Dict[str, Any]]` in src/core/coding.py, restricted to the
keys the pipeline reads and writes).  `diagnosis_pointers` is the normalised
letter list: the source accepts either a string of letters or a list of
single-letter strings and normalises both to a list of letters. -/
structure SuggMeta where
  charge : Option ℚ := none
  date_of_service : Option String := none
  place_of_service : Option String := none
  modifier : Option String := none
  diagnosis_pointers : Option (List Char) := none
deriving Repr, DecidableEq

/-- `CodeSuggestion` from src/core/coding.py. -/
structure CodeSuggestion where
  code : String
  code_type : String
  description : String := ""
  rationale : String := ""
  confidence : ℚ
  source_text : Option String := none
  metadata : SuggMeta := {}
deriving Repr, DecidableEq

/-- `CodeMismatch` from src/core/coding.py. -/
structure CodeMismatch where
  mismatch_type : String
  severity : String
  message : String
  affected_codes : List String := []
  suggestion : Option String := none
deriving Repr, DecidableEq

/-- The CMS-1500 diagnosis letters, `letters = "ABCDEFGHIJKL"` in the source. -/
def cmsLetters : List Char := ['A', 'B', 'C', 'D', 'E', 'F', 'G', 'H', 'I', 'J', 'K', 'L']

/-- `MedicalCodingAssistant._assign_diagnosis_letters`: iterate
`enumerate(diagnoses[:12])` and assign `letters[idx]` to `dx.code` in a dict. -/
def assign_diagnosis_letters (diagnoses : List CodeSuggestion) : List (String × Char) :=
  ((diagnoses.take 12).zip cmsLetters).foldl
    (fun m p => dictInsert m p.1.code p.2) []

/-- Shorthand for a diagnosis suggestion used in concrete inputs. -/
def mkDx (c : String) (conf : ℚ) : CodeSuggestion :=
  { code := c, code_type := "ICD-10", confidence := conf }

theorem assign_letters_eq_zip (diagnoses : List CodeSuggestion)
    (hnd : (diagnoses.map CodeSuggestion.code).Nodup) :
    assign_diagnosis_letters diagnoses
      = ((diagnoses.take 12).zip cmsLetters).map (fun p => (p.1.code, p.2)) := by
  unfold assign_diagnosis_letters
  have hlen : (diagnoses.take 12).length ≤ cmsLetters.length := by
    simp [cmsLetters, List.length_take]
  have hfst : ((diagnoses.take 12).zip cmsLetters).map Prod.fst = diagnoses.take 12 :=
    List.map_fst_zip _ _ hlen
  have hkeys : (((diagnoses.take 12).zip cmsLetters).map
      (fun p => (p.1.code, p.2))).map Prod.fst = (diagnoses.map CodeSuggestion.code).take 12 := by
    have h1 : (((diagnoses.take 12).zip cmsLetters).map (fun p => (p.1.code, p.2))).map Prod.fst
        = ((diagnoses.take 12).zip cmsLetters).map (fun p => p.1.code) := by
      simp [List.map_map, Function.comp]
    have h2 : ((diagnoses.take 12).zip cmsLetters).map (fun p => p.1.code)
        = (((diagnoses.take 12).zip cmsLetters).map Prod.fst).map CodeSuggestion.code := by
      simp [List.map_map, Function.comp]
    rw [h1, h2, hfst, List.map_take]
  have hnd' : ((((diagnoses.take 12).zip cmsLetters).map
      (fun p => (p.1.code, p.2))).map Prod.fst).Nodup := by
    rw [hkeys]
    exact hnd.sublist (List.take_sublist _ _)
  have := foldl_dictInsert_eq_append
    (((diagnoses.take 12).zip cmsLetters).map (fun p => (p.1.code, p.2))) []
    hnd' (by intro p _ q hq; cases hq)
  rw [List.foldl_map] at this
  simpa using this

/-- C6: for a diagnosis list with pairwise-distinct codes the letter map
assigns letters A, B, C, ... in list order to the first min(N, 12) diagnoses
(so it has exactly min(N, 12) entries) and assigns no letter to any diagnosis
past the 12th. -/
theorem assign_diagnosis_letters_spec (diagnoses : List CodeSuggestion)
    (hnd : (diagnoses.map CodeSuggestion.code).Nodup) :
    assign_diagnosis_letters diagnoses
        = ((diagnoses.take 12).zip cmsLetters).map (fun p => (p.1.code, p.2))
    ∧ (assign_diagnosis_letters diagnoses).length = min diagnoses.length 12
    ∧ ∀ i, ∀ h : i < diagnoses.length, 12 ≤ i →
        dictFind? (assign_diagnosis_letters diagnoses) diagnoses[i].code = none := by
  have heq := assign_letters_eq_zip diagnoses hnd
  refine ⟨heq, ?_, ?_⟩
  · rw [heq]
    simp [List.length_zip, List.length_take, cmsLetters]
    omega
  · intro i h h12
    have hsplit : diagnoses.map CodeSuggestion.code
        = (diagnoses.map CodeSuggestion.code).take 12
          ++ (diagnoses.map CodeSuggestion.code).drop 12 :=
      (List.take_append_drop _ _).symm
    have hnd2 := hsplit ▸ hnd
    rw [List.nodup_append] at hnd2
    have hmem : diagnoses[i].code ∈ (diagnoses.map CodeSuggestion.code).drop 12 := by
      have hi : i - 12 < ((diagnoses.map CodeSuggestion.code).drop 12).length := by
        simp [List.length_drop]
        omega
      have hstep := List.getElem_mem hi
      rw [List.getElem_drop] at hstep
      have h2 : (12 : ℕ) + (i - 12) = i := by omega
      simp only [h2] at hstep
      simpa [List.getElem_map] using hstep
    apply dictFind?_eq_none
    intro p hp
    rw [heq] at hp
    obtain ⟨⟨qd, ql⟩, hq, hpq⟩ := List.mem_map.mp hp
    have hq1 : qd ∈ diagnoses.take 12 := (List.of_mem_zip hq).1
    have hqmem : qd.code ∈ (diagnoses.map CodeSuggestion.code).take 12 := by
      rw [← List.map_take]
      exact List.mem_map_of_mem _ hq1
    rw [← hpq]
    show qd.code ≠ diagnoses[i].code
    intro hcontra
    exact (hnd2.2.2 hqmem) (by rw [hcontra]; exact hmem)

/-- Witness for C6 at the two-diagnosis input of spec Scenario 2. -/
theorem assign_diagnosis_letters_spec_witness :
    (([mkDx "J20.9" (9/10), mkDx "I10" (8/10)].map CodeSuggestion.code).Nodup)
    ∧ assign_diagnosis_letters [mkDx "J20.9" (9/10), mkDx "I10" (8/10)]
        = [("J20.9", 'A'), ("I10", 'B')] := by
  refine ⟨by decide, ?_⟩
  have h := (assign_diagnosis_letters_spec [mkDx "J20.9" (9/10), mkDx "I10" (8/10)]
    (by decide)).1
  rw [h]
  rfl

theorem map_snd_zip_sublist {α β : Type} (l₁ : List α) (l₂ : List β) :
    ((l₁.zip l₂).map Prod.snd).Sublist l₂ := by
  induction l₁ generalizing l₂ with
  | nil => simp
  | cons a l₁ ih =>
      cases l₂ with
      | nil => simp
      | cons b l₂ => simpa using (ih l₂).cons₂ b

/-- The local letter-to-code dict built inside
`MedicalCodingAssistant._map_diagnoses_to_procedures`: iterate
`enumerate(diagnoses[:12])` assigning `diagnosis_letter_map[letters[idx]] = dx.code`. -/
def diagnosis_letter_map (diagnoses : List CodeSuggestion) : List (Char × String) :=
  ((diagnoses.take 12).zip cmsLetters).foldl
    (fun m p => dictInsert m p.2 p.1.code) []

/-- Swap every binding of a code-to-letter map, the candidate inverse map. -/
def invertMap (m : List (String × Char)) : List (Char × String) :=
  m.map (fun p => (p.2, p.1))

theorem letter_map_eq_zip (diagnoses : List CodeSuggestion) :
    diagnosis_letter_map diagnoses
      = ((diagnoses.take 12).zip cmsLetters).map (fun p => (p.2, p.1.code)) := by
  unfold diagnosis_letter_map
  have hnd' : ((((diagnoses.take 12).zip cmsLetters).map
      (fun p => (p.2, p.1.code))).map Prod.fst).Nodup := by
    have h1 : (((diagnoses.take 12).zip cmsLetters).map
        (fun p => (p.2, p.1.code))).map Prod.fst
        = ((diagnoses.take 12).zip cmsLetters).map Prod.snd := by
      simp [List.map_map, Function.comp]
    rw [h1]
    have hsub := map_snd_zip_sublist (diagnoses.take 12) cmsLetters
    have hlet : cmsLetters.Nodup := by decide
    exact hlet.sublist hsub
  have := foldl_dictInsert_eq_append
    (((diagnoses.take 12).zip cmsLetters).map (fun p => (p.2, p.1.code))) []
    hnd' (by intro p _ q hq; cases hq)
  rw [List.foldl_map] at this
  simpa using this

/-- C10 counterexample: with a duplicated diagnosis code the local
letter-to-code map has two bindings for the code while the published
code-to-letter map keeps only the last letter, so the two are not inverses. -/
theorem letter_map_inverse_counterexample :
    diagnosis_letter_map [mkDx "J20.9" 1, mkDx "J20.9" 1]
      ≠ invertMap (assign_diagnosis_letters [mkDx "J20.9" 1, mkDx "J20.9" 1]) := by
  decide

/-- C10 amended: for a diagnosis list whose codes are pairwise distinct, the
letter-to-code map built locally inside the mapping step is exactly the
binding-wise inverse of the published code-to-letter map. -/
theorem letter_map_inverse (diagnoses : List CodeSuggestion)
    (hnd : (diagnoses.map CodeSuggestion.code).Nodup) :
    diagnosis_letter_map diagnoses = invertMap (assign_diagnosis_letters diagnoses) := by
  rw [letter_map_eq_zip, assign_letters_eq_zip diagnoses hnd]
  unfold invertMap
  simp [List.map_map, Function.comp]

/-- Witness for C10 at a concrete two-diagnosis input. -/
theorem letter_map_inverse_witness :
    (([mkDx "J20.9" (9/10), mkDx "I10" (8/10)].map CodeSuggestion.code).Nodup)
    ∧ diagnosis_letter_map [mkDx "J20.9" (9/10), mkDx "I10" (8/10)]
        = invertMap (assign_diagnosis_letters [mkDx "J20.9" (9/10), mkDx "I10" (8/10)]) :=
  ⟨by decide, letter_map_inverse [mkDx "J20.9" (9/10), mkDx "I10" (8/10)] (by decide)⟩

/-- The `avg_conf` helper inside
`MedicalCodingAssistant._calculate_overall_confidence`: mean confidence of a
suggestion list, 0 for an empty list. -/
def avg_conf (items : List CodeSuggestion) : ℚ :=
  if items = [] then 0
  else (items.map CodeSuggestion.confidence).sum / items.length

/-- The mismatch-penalty loop of `_calculate_overall_confidence`: accumulate
0.15 per error-severity and 0.05 per warning-severity mismatch, then cap the
sum at 0.4. -/
def mismatch_penalty (mismatches : List CodeMismatch) : ℚ :=
  min
    (mismatches.foldl
      (fun acc m =>
        if m.severity = "error" then acc + 15/100
        else if m.severity = "warning" then acc + 5/100
        else acc) 0)
    (4/10)

/-- `MedicalCodingAssistant._calculate_overall_confidence` from
src/core/coding.py: early 0 when both lists are empty, weighted base score,
optional blending of the extraction confidence at 10 percent, penalty, clamp. -/
def calculate_overall_confidence (diagnoses procedures : List CodeSuggestion)
    (mismatches : List CodeMismatch) (extraction_confidence : Option ℚ) : ℚ :=
  if diagnoses = [] ∧ procedures = [] then 0
  else
    let dx_conf := avg_conf diagnoses
    let proc_conf := avg_conf procedures
    let base₀ := 6/10 * dx_conf + 3/10 * proc_conf
    let base :=
      match extraction_confidence with
      | some ec => 9/10 * base₀ + 1/10 * ec
      | none => base₀
    max 0 (min 1 (base - mismatch_penalty mismatches))

/-- Number of mismatches of a given severity, as a rational. -/
def severity_count (mismatches : List CodeMismatch) (sev : String) : ℚ :=
  ((mismatches.filter (fun m => m.severity = sev)).length : ℚ)

/-- The C1 claim formula, written from the spec text: clamp(0, 1,
0.6 avg(dx) + 0.3 avg(proc) + 0.1 ec_if_present − penalty) with
penalty = min(0.4, 0.15 #errors + 0.05 #warnings). -/
def spec_overall_confidence (diagnoses procedures : List CodeSuggestion)
    (mismatches : List CodeMismatch) (extraction_confidence : Option ℚ) : ℚ :=
  let penalty := min (4/10)
    (15/100 * severity_count mismatches "error" + 5/100 * severity_count mismatches "warning")
  let ecTerm := match extraction_confidence with
    | some ec => 1/10 * ec
    | none => 0
  max 0 (min 1
    (6/10 * avg_conf diagnoses + 3/10 * avg_conf procedures + ecTerm - penalty))

/-- C1 counterexample: one diagnosis with confidence 1, no procedures, no
mismatches, extraction confidence 1.  The code blends the extraction
confidence multiplicatively (0.9 · 0.6 + 0.1 = 0.64) while the claimed
formula adds it (0.6 + 0.1 = 0.7). -/
theorem overall_confidence_counterexample :
    calculate_overall_confidence [mkDx "J20.9" 1] [] [] (some 1)
      ≠ spec_overall_confidence [mkDx "J20.9" 1] [] [] (some 1) := by
  norm_num [calculate_overall_confidence, spec_overall_confidence, avg_conf,
    mismatch_penalty, severity_count, mkDx]

theorem penalty_foldl (mismatches : List CodeMismatch) (a : ℚ) :
    mismatches.foldl
      (fun acc m =>
        if m.severity = "error" then acc + 15/100
        else if m.severity = "warning" then acc + 5/100
        else acc) a
    = a + 15/100 * severity_count mismatches "error"
        + 5/100 * severity_count mismatches "warning" := by
  induction mismatches generalizing a with
  | nil => simp [severity_count]
  | cons m rest ih =>
      simp only [List.foldl_cons]
      by_cases h1 : m.severity = "error"
      · rw [ih]
        simp [severity_count, List.filter_cons, h1]
        ring
      · by_cases h2 : m.severity = "warning"
        · rw [if_neg h1, ih]
          simp [severity_count, List.filter_cons, h1, h2]
          ring
        · rw [if_neg h1, if_neg h2, ih]
          simp [severity_count, List.filter_cons, h1, h2]

/-- C1 amended: the overall confidence is 0 when both code lists are empty;
otherwise it equals clamp(0, 1, core − penalty) where core is
0.6 avg(dx) + 0.3 avg(proc) without extraction confidence and
0.54 avg(dx) + 0.27 avg(proc) + 0.1 ec with it (the code multiplies the base
score by 0.9 before adding 0.1 ec); penalty is as claimed. -/
def amended_overall_confidence (diagnoses procedures : List CodeSuggestion)
    (mismatches : List CodeMismatch) (extraction_confidence : Option ℚ) : ℚ :=
  if diagnoses = [] ∧ procedures = [] then 0
  else
    let penalty := min
      (15/100 * severity_count mismatches "error" + 5/100 * severity_count mismatches "warning")
      (4/10)
    let core := match extraction_confidence with
      | some ec => 54/100 * avg_conf diagnoses + 27/100 * avg_conf procedures + 1/10 * ec
      | none => 6/10 * avg_conf diagnoses + 3/10 * avg_conf procedures
    max 0 (min 1 (core - penalty))

/-- C1 (amended) holds: the implemented confidence equals the amended
closed-form formula on every input. -/
theorem calculate_overall_confidence_amended (diagnoses procedures : List CodeSuggestion)
    (mismatches : List CodeMismatch) (extraction_confidence : Option ℚ) :
    calculate_overall_confidence diagnoses procedures mismatches extraction_confidence
      = amended_overall_confidence diagnoses procedures mismatches extraction_confidence := by
  unfold calculate_overall_confidence amended_overall_confidence mismatch_penalty
  rw [penalty_foldl]
  by_cases h : diagnoses = [] ∧ procedures = []
  · simp [h]
  · simp only [if_neg h]
    cases extraction_confidence with
    | none => ring_nf
    | some ec =>
        have hcore : 9/10 * (6/10 * avg_conf diagnoses + 3/10 * avg_conf procedures)
            + 1/10 * ec
            = 54/100 * avg_conf diagnoses + 27/100 * avg_conf procedures + 1/10 * ec := by
          ring
        simp only [hcore, zero_add]

/-- `ProcedureCode` from src/core/extraction.py. -/
structure ProcedureCode where
  code : String
  description : Option String := none
  modifier : Option String := none
  units : ℕ := 1
  charge : Option ℚ := none
  diagnosis_pointers : List Char := []
  date_of_service : Option String := none
  place_of_service : Option String := none
  confidence : ℚ := 1
deriving Repr, DecidableEq

/-- Python truthiness of an optional string: `None` and the empty string are
falsy. -/
def truthyStr (o : Option String) : Bool :=
  match o with
  | none => false
  | some s => !(s == "")

/-- The `code_key` of an extracted procedure inside
`_merge_procedure_suggestions`: code plus hyphenated modifier when the
modifier is truthy. -/
def code_key (proc : ProcedureCode) : String :=
  match proc.modifier with
  | some m => if m = "" then proc.code else proc.code ++ "-" ++ m
  | none => proc.code

/-- The suggestion built for one extracted procedure in the first loop of
`_merge_procedure_suggestions`, with the metadata propagation guards of the
source (charge on `is not None`, the string fields and pointer list on
truthiness). -/
def proc_to_suggestion (proc : ProcedureCode) : CodeSuggestion :=
  { code := code_key proc
    code_type := if proc.code.length = 5 then "CPT" else "HCPCS"
    description := proc.description.getD ""
    rationale := "Extracted from document"
    confidence := proc.confidence
    metadata :=
      { charge := proc.charge
        date_of_service := if truthyStr proc.date_of_service then proc.date_of_service else none
        place_of_service := if truthyStr proc.place_of_service then proc.place_of_service else none
        modifier := if truthyStr proc.modifier then proc.modifier else none
        diagnosis_pointers :=
          if proc.diagnosis_pointers = [] then none else some proc.diagnosis_pointers } }

/-- `s.code.split('-')[0]`: the modifier-stripped base code. -/
def base_code (s : String) : String := s.takeWhile (· ≠ '-')

/-- The LLM fallback loop of `_merge_procedure_suggestions`: admit a model
suggestion when its code is unseen and its confidence is at least 0.6,
recording admitted codes. -/
def llm_accept : List CodeSuggestion → List String → List CodeSuggestion
  | [], _ => []
  | s :: rest, seen =>
      if s.code ∉ seen ∧ 6/10 ≤ s.confidence then s :: llm_accept rest (s.code :: seen)
      else llm_accept rest seen

/-- Deduplication by exact code with a seen set (reference form of the LLM
loop's seen-code filtering). -/
def exact_dedup : List CodeSuggestion → List String → List CodeSuggestion
  | [], _ => []
  | s :: rest, seen =>
      if s.code ∈ seen then exact_dedup rest seen
      else s :: exact_dedup rest (s.code :: seen)

/-- The final loop of `_merge_procedure_suggestions`: keep the earliest entry
per modifier-stripped base code. -/
def dedup_base : List CodeSuggestion → List String → List CodeSuggestion
  | [], _ => []
  | s :: rest, seen =>
      if base_code s.code ∈ seen then dedup_base rest seen
      else s :: dedup_base rest (base_code s.code :: seen)

/-- The merged list before the final base-code deduplication: extracted
procedures when any exist, otherwise the admitted LLM suggestions. -/
def pre_merge (existing : List ProcedureCode) (llm : List CodeSuggestion) :
    List CodeSuggestion :=
  let merged := existing.map proc_to_suggestion
  if merged = [] ∧ llm ≠ [] then llm_accept llm [] else merged

/-- `MedicalCodingAssistant._merge_procedure_suggestions` from
src/core/coding.py. -/
def merge_procedure_suggestions (existing : List ProcedureCode)
    (llm : List CodeSuggestion) : List CodeSuggestion :=
  dedup_base (pre_merge existing llm) []

theorem llm_accept_eq_exact_dedup_filter (llm : List CodeSuggestion) (seen : List String) :
    llm_accept llm seen = exact_dedup (llm.filter (fun s => 6/10 ≤ s.confidence)) seen := by
  induction llm generalizing seen with
  | nil => rfl
  | cons s rest ih =>
      by_cases hc : 6/10 ≤ s.confidence
      · by_cases hs : s.code ∈ seen
        · simp [llm_accept, exact_dedup, List.filter_cons, hc, hs, ih]
        · simp [llm_accept, exact_dedup, List.filter_cons, hc, hs, ih]
      · simp [llm_accept, List.filter_cons, hc, ih]

theorem dedup_base_exact_dedup (l : List CodeSuggestion) (cs bs : List String)
    (hinv : ∀ c ∈ cs, base_code c ∈ bs) :
    dedup_base (exact_dedup l cs) bs = dedup_base l bs := by
  induction l generalizing cs bs with
  | nil => rfl
  | cons s rest ih =>
      by_cases hcode : s.code ∈ cs
      · have hbase : base_code s.code ∈ bs := hinv s.code hcode
        simp only [exact_dedup, if_pos hcode]
        rw [ih cs bs hinv]
        simp [dedup_base, hbase]
      · simp only [exact_dedup, if_neg hcode]
        by_cases hbase : base_code s.code ∈ bs
        · simp only [dedup_base, if_pos hbase]
          exact ih (s.code :: cs) bs (by
            intro c hc
            rcases List.mem_cons.mp hc with h | h
            · subst h; exact hbase
            · exact hinv c h)
        · simp only [dedup_base, if_neg hbase, List.cons.injEq, true_and]
          exact ih (s.code :: cs) (base_code s.code :: bs) (by
            intro c hc
            rcases List.mem_cons.mp hc with h | h
            · subst h; exact List.mem_cons_self _ _
            · exact List.mem_cons_of_mem _ (hinv c h))

theorem dedup_base_subset (l : List CodeSuggestion) (bs : List String) :
    ∀ s ∈ dedup_base l bs, s ∈ l := by
  induction l generalizing bs with
  | nil => intro s hs; cases hs
  | cons t rest ih =>
      intro s hs
      by_cases hbase : base_code t.code ∈ bs
      · simp only [dedup_base, if_pos hbase] at hs
        exact List.mem_cons_of_mem _ (ih bs s hs)
      · simp only [dedup_base, if_neg hbase] at hs
        rcases List.mem_cons.mp hs with h | h
        · exact h ▸ List.mem_cons_self _ _
        · exact List.mem_cons_of_mem _ (ih _ s h)

theorem dedup_base_nodup_and_find (l : List CodeSuggestion) (bs : List String) :
    ((dedup_base l bs).map (fun s => base_code s.code)).Nodup
    ∧ ∀ s ∈ dedup_base l bs,
        base_code s.code ∉ bs
        ∧ l.find? (fun t => base_code t.code == base_code s.code) = some s := by
  induction l generalizing bs with
  | nil => exact ⟨List.nodup_nil, by intro s hs; cases hs⟩
  | cons t rest ih =>
      by_cases hbase : base_code t.code ∈ bs
      · simp only [dedup_base, if_pos hbase]
        refine ⟨(ih bs).1, ?_⟩
        intro s hs
        obtain ⟨hnotin, hfind⟩ := (ih bs).2 s hs
        refine ⟨hnotin, ?_⟩
        rw [List.find?_cons]
        have hne : (base_code t.code == base_code s.code) = false := by
          rw [beq_eq_false_iff_ne]
          intro hcontra
          exact hnotin (hcontra ▸ hbase)
        rw [hne]
        exact hfind
      · simp only [dedup_base, if_neg hbase]
        constructor
        · rw [List.map_cons, List.nodup_cons]
          constructor
          · intro hcontra
            obtain ⟨s, hs, heq⟩ := List.mem_map.mp hcontra
            obtain ⟨hnotin, _⟩ := (ih (base_code t.code :: bs)).2 s hs
            exact hnotin (heq ▸ List.mem_cons_self _ _)
          · exact (ih (base_code t.code :: bs)).1
        · intro s hs
          rcases List.mem_cons.mp hs with h | h
          · subst h
            refine ⟨hbase, ?_⟩
            rw [List.find?_cons]
            simp
          · obtain ⟨hnotin, hfind⟩ := (ih (base_code t.code :: bs)).2 s h
            have hne : base_code s.code ≠ base_code t.code := by
              intro hcontra
              exact hnotin (by rw [hcontra]; exact List.mem_cons_self _ _)
            refine ⟨fun hc => hnotin (List.mem_cons_of_mem _ hc), ?_⟩
            rw [List.find?_cons]
            have hne' : (base_code t.code == base_code s.code) = false := by
              rw [beq_eq_false_iff_ne]
              exact fun hc => hne hc.symm
            rw [hne']
            exact hfind

/-- C9: when pattern-extracted procedures exist the merged list contains only
their images (no model suggestion); when none exist the merged list is the
base-code deduplication of exactly the model suggestions with confidence at
least 0.6; and the final list has pairwise-distinct modifier-stripped base
codes, each entry being the earliest pre-merge entry with its base code. -/
theorem merge_procedure_suggestions_spec (existing : List ProcedureCode)
    (llm : List CodeSuggestion) :
    (existing ≠ [] → ∀ s ∈ merge_procedure_suggestions existing llm,
        ∃ p ∈ existing, s = proc_to_suggestion p)
    ∧ (existing = [] → merge_procedure_suggestions existing llm
        = dedup_base (llm.filter (fun s => 6/10 ≤ s.confidence)) [])
    ∧ ((merge_procedure_suggestions existing llm).map
        (fun s => base_code s.code)).Nodup
    ∧ ∀ s ∈ merge_procedure_suggestions existing llm,
        (pre_merge existing llm).find?
          (fun t => base_code t.code == base_code s.code) = some s := by
  refine ⟨?_, ?_, ?_, ?_⟩
  · intro hne s hs
    have hmap : existing.map proc_to_suggestion ≠ [] := by
      intro hc
      exact hne (List.map_eq_nil_iff.mp hc)
    have hpre : pre_merge existing llm = existing.map proc_to_suggestion := by
      unfold pre_merge
      simp [hmap]
    have hmem : s ∈ pre_merge existing llm :=
      dedup_base_subset _ _ s hs
    rw [hpre] at hmem
    obtain ⟨p, hp, hps⟩ := List.mem_map.mp hmem
    exact ⟨p, hp, hps.symm⟩
  · intro hnil
    subst hnil
    unfold merge_procedure_suggestions pre_merge
    by_cases hllm : llm = []
    · subst hllm; rfl
    · simp only [List.map_nil, ne_eq, hllm, not_false_iff, and_self, if_pos]
      rw [llm_accept_eq_exact_dedup_filter]
      exact dedup_base_exact_dedup _ [] [] (by intro c hc; cases hc)
  · exact (dedup_base_nodup_and_find (pre_merge existing llm) []).1
  · intro s hs
    exact ((dedup_base_nodup_and_find (pre_merge existing llm) []).2 s hs).2

/-- Witness for C9: the extracted-procedures branch at a singleton input and
the model-suggestions branch at a singleton input. -/
theorem merge_procedure_suggestions_spec_witness :
    (∀ s ∈ merge_procedure_suggestions [{ code := "99213", confidence := 7/10 }] [],
        ∃ p ∈ [({ code := "99213", confidence := 7/10 } : ProcedureCode)],
          s = proc_to_suggestion p)
    ∧ merge_procedure_suggestions ([] : List ProcedureCode)
        [{ code := "99214", code_type := "CPT", confidence := 8/10 }]
        = dedup_base
            ([{ code := "99214", code_type := "CPT", confidence := 8/10 }].filter
              (fun s => 6/10 ≤ s.confidence)) [] :=
  ⟨(merge_procedure_suggestions_spec [{ code := "99213", confidence := 7/10 }] []).1
      (List.cons_ne_nil _ _),
   (merge_procedure_suggestions_spec []
      [{ code := "99214", code_type := "CPT", confidence := 8/10 }]).2.1 rfl⟩

/-- `setdefault(k, []).append(v)` on a Python dict of lists: append `v` to the
entry of `k`, creating the entry at the end of the dict when absent. -/
def appendAt {α : Type} (m : List (String × List α)) (k : String) (v : α) :
    List (String × List α) :=
  match m with
  | [] => [(k, [v])]
  | (k', vs) :: rest =>
      if k' = k then (k', vs ++ [v]) :: rest else (k', vs) :: appendAt rest k v

theorem dictFind?_dictInsert {κ α : Type} [DecidableEq κ]
    (m : List (κ × α)) (k : κ) (v : α) (k' : κ) :
    dictFind? (dictInsert m k v) k' = if k = k' then some v else dictFind? m k' := by
  induction m with
  | nil => simp [dictInsert, dictFind?]
  | cons p rest ih =>
      obtain ⟨k₀, v₀⟩ := p
      by_cases h0 : k₀ = k
      · subst h0
        by_cases h : k₀ = k' <;> simp [dictInsert, dictFind?, h]
      · by_cases h : k₀ = k'
        · subst h
          have hne : ¬ k = k₀ := fun hc => h0 hc.symm
          simp [dictInsert, dictFind?, h0, hne]
        · simp [dictInsert, dictFind?, h0, h, ih]

theorem dictFind?_appendAt {α : Type} (m : List (String × List α)) (k : String) (v : α)
    (k' : String) :
    dictFind? (appendAt m k v) k'
      = if k = k' then some (((dictFind? m k).getD []) ++ [v]) else dictFind? m k' := by
  induction m with
  | nil => simp [appendAt, dictFind?]
  | cons p rest ih =>
      obtain ⟨k₀, vs⟩ := p
      by_cases h0 : k₀ = k
      · subst h0
        by_cases h : k₀ = k' <;> simp [appendAt, dictFind?, h]
      · by_cases h : k₀ = k'
        · subst h
          have hne : ¬ k = k₀ := fun hc => h0 hc.symm
          simp [appendAt, dictFind?, h0, hne]
        · simp [appendAt, dictFind?, h0, h, ih]

/-- Pointer letters read from a suggestion's metadata in
`_map_diagnoses_to_procedures` (a missing key normalises to no letters; a
string value is read character-wise, a list value element-wise). -/
def pointer_letters (proc : CodeSuggestion) : List Char :=
  proc.metadata.diagnosis_pointers.getD []

/-- The dict comprehension initialising the diagnosis-to-procedure map with an
empty list per diagnosis code. -/
def init_dx_map (diagnoses : List CodeSuggestion) : List (String × List String) :=
  diagnoses.foldl (fun m dx => dictInsert m dx.code ([] : List String)) []

/-- The body of the procedure loop of
`MedicalCodingAssistant._map_diagnoses_to_procedures`: explicit pointer
letters are resolved through the local letter map and appended only when the
resolved code is truthy (`if dx_code:` — a missing letter or an empty-string
code is skipped), otherwise the procedure is attached to the first diagnosis
only. -/
def proc_step (diagnoses : List CodeSuggestion)
    (m : List (String × List String)) (proc : CodeSuggestion) :
    List (String × List String) :=
  let pointers := pointer_letters proc
  if pointers ≠ [] then
    pointers.foldl
      (fun acc letter =>
        match dictFind? (diagnosis_letter_map diagnoses) letter with
        | some dx_code => if dx_code ≠ "" then appendAt acc dx_code proc.code else acc
        | none => acc) m
  else
    match diagnoses with
    | [] => m
    | dx :: _ => appendAt m dx.code proc.code

/-- `MedicalCodingAssistant._map_diagnoses_to_procedures` from
src/core/coding.py. -/
def map_diagnoses_to_procedures (diagnoses procedures : List CodeSuggestion) :
    List (String × List String) :=
  procedures.foldl (proc_step diagnoses) (init_dx_map diagnoses)

/-- The procedure codes one procedure contributes to the entry of `dxCode`:
with explicit pointer letters, one occurrence per letter resolving to a
truthy code equal to `dxCode`; without them, one occurrence exactly when
`dxCode` is the first diagnosis's code. -/
def proc_contrib (diagnoses : List CodeSuggestion) (dxCode : String)
    (proc : CodeSuggestion) : List String :=
  let pointers := pointer_letters proc
  if pointers ≠ [] then
    pointers.filterMap
      (fun letter =>
        match dictFind? (diagnosis_letter_map diagnoses) letter with
        | some c => if c ≠ "" ∧ c = dxCode then some proc.code else none
        | none => none)
  else
    match diagnoses with
    | [] => []
    | dx :: _ => if dx.code = dxCode then [proc.code] else []

theorem init_dx_fold_lookup (diagnoses : List CodeSuggestion) (k : String) :
    ∀ m : List (String × List String),
      (k ∈ diagnoses.map CodeSuggestion.code ∨ dictFind? m k = some []) →
      dictFind? (diagnoses.foldl (fun m dx => dictInsert m dx.code ([] : List String)) m) k
        = some [] := by
  induction diagnoses with
  | nil =>
      intro m hm
      rcases hm with h | h
      · cases h
      · exact h
  | cons dx rest ih =>
      intro m hm
      simp only [List.foldl_cons]
      apply ih
      by_cases hcode : dx.code = k
      · right
        rw [dictFind?_dictInsert, if_pos hcode]
      · rcases hm with h | h
        · simp only [List.map_cons, List.mem_cons] at h
          rcases h with h' | h'
          · exact absurd h' (fun hc => hcode hc.symm)
          · left; exact h'
        · right
          rw [dictFind?_dictInsert, if_neg hcode]
          exact h

theorem init_dx_map_lookup (diagnoses : List CodeSuggestion) (k : String)
    (hk : k ∈ diagnoses.map CodeSuggestion.code) :
    dictFind? (init_dx_map diagnoses) k = some [] :=
  init_dx_fold_lookup diagnoses k [] (Or.inl hk)

theorem letters_fold_lookup (diagnoses : List CodeSuggestion) (pcode : String)
    (letters : List Char) (m : List (String × List String)) (dxCode : String)
    (vs : List String) (h : dictFind? m dxCode = some vs) :
    dictFind?
      (letters.foldl
        (fun acc letter =>
          match dictFind? (diagnosis_letter_map diagnoses) letter with
          | some dx_code => if dx_code ≠ "" then appendAt acc dx_code pcode else acc
          | none => acc) m) dxCode
      = some (vs ++ letters.filterMap
          (fun letter =>
            match dictFind? (diagnosis_letter_map diagnoses) letter with
            | some c => if c ≠ "" ∧ c = dxCode then some pcode else none
            | none => none)) := by
  induction letters generalizing m vs with
  | nil => simpa using h
  | cons letter rest ih =>
      simp only [List.foldl_cons, List.filterMap_cons]
      cases hlet : dictFind? (diagnosis_letter_map diagnoses) letter with
      | none => simpa using ih m vs h
      | some c =>
          by_cases hstr : c = ""
          · subst hstr
            simpa using ih m vs h
          · by_cases hc : c = dxCode
            · subst hc
              have h' : dictFind? (appendAt m c pcode) c = some (vs ++ [pcode]) := by
                rw [dictFind?_appendAt, if_pos rfl, h]
                rfl
              have := ih (appendAt m c pcode) (vs ++ [pcode]) h'
              simpa [hstr, List.append_assoc] using this
            · have h' : dictFind? (appendAt m c pcode) dxCode = some vs := by
                rw [dictFind?_appendAt, if_neg hc]
                exact h
              have := ih (appendAt m c pcode) vs h'
              simpa [hstr, hc] using this

theorem proc_fold_lookup (diagnoses : List CodeSuggestion)
    (procedures : List CodeSuggestion) (m : List (String × List String))
    (dxCode : String) (vs : List String) (h : dictFind? m dxCode = some vs) :
    dictFind? (procedures.foldl (proc_step diagnoses) m) dxCode
      = some (vs ++ (procedures.map (proc_contrib diagnoses dxCode)).flatten) := by
  induction procedures generalizing m vs with
  | nil => simpa using h
  | cons proc rest ih =>
      simp only [List.foldl_cons, List.map_cons, List.flatten_cons]
      have hstep : dictFind? (proc_step diagnoses m proc) dxCode
          = some (vs ++ proc_contrib diagnoses dxCode proc) := by
        unfold proc_step proc_contrib
        by_cases hp : pointer_letters proc ≠ []
        · simp only [if_pos hp]
          exact letters_fold_lookup diagnoses proc.code (pointer_letters proc) m dxCode vs h
        · simp only [if_neg hp]
          cases diagnoses with
          | nil => simpa using h
          | cons dx restDx =>
              dsimp only
              by_cases hdx : dx.code = dxCode
              · rw [hdx, dictFind?_appendAt, if_pos rfl, h]
                simp
              · rw [dictFind?_appendAt, if_neg hdx]
                simp [hdx, h]
      have := ih (proc_step diagnoses m proc) (vs ++ proc_contrib diagnoses dxCode proc) hstep
      simpa [List.append_assoc] using this

/-- C7: for a non-empty diagnosis list, the entry of each diagnosis code in
the diagnosis-to-procedure map collects, in order, exactly the contributions
of each procedure: a procedure with explicit pointer letters contributes only
where its letters resolve to a truthy diagnosis code, and a procedure without
them contributes exactly one occurrence to the first diagnosis (so no
procedure is mapped to every diagnosis by default). -/
theorem map_diagnoses_to_procedures_spec (diagnoses procedures : List CodeSuggestion)
    (hne : diagnoses ≠ []) (dxCode : String)
    (hmem : dxCode ∈ diagnoses.map CodeSuggestion.code) :
    dictFind? (map_diagnoses_to_procedures diagnoses procedures) dxCode
      = some ((procedures.map (proc_contrib diagnoses dxCode)).flatten) := by
  have _ := hne
  have hinit := init_dx_map_lookup diagnoses dxCode hmem
  have := proc_fold_lookup diagnoses procedures (init_dx_map diagnoses) dxCode [] hinit
  simpa using this

/-- Witness for C7 at the input of spec Scenario 3: a pointerless procedure
99213 with diagnoses J20.9 and I10 maps to J20.9 only. -/
theorem map_diagnoses_to_procedures_spec_witness :
    dictFind?
      (map_diagnoses_to_procedures [mkDx "J20.9" (9/10), mkDx "I10" (8/10)]
        [{ code := "99213", code_type := "CPT", confidence := 9/10 }]) "J20.9"
      = some (([{ code := "99213", code_type := "CPT", confidence := (9/10 : ℚ) }].map
          (proc_contrib [mkDx "J20.9" (9/10), mkDx "I10" (8/10)] "J20.9")).flatten) :=
  map_diagnoses_to_procedures_spec [mkDx "J20.9" (9/10), mkDx "I10" (8/10)]
    [{ code := "99213", code_type := "CPT", confidence := 9/10 }]
    (List.cons_ne_nil _ _) "J20.9" (by simp [mkDx])

/-- `if k not in d: d[k] = []` on a Python dict of lists: keep an existing
entry, otherwise create an empty entry at the end. -/
def ensure (m : List (String × List Char)) (k : String) : List (String × List Char) :=
  match m with
  | [] => [(k, [])]
  | (k', vs) :: rest =>
      if k' = k then (k', vs) :: rest else (k', vs) :: ensure rest k

theorem dictFind?_ensure (m : List (String × List Char)) (k : String) (k' : String) :
    dictFind? (ensure m k) k'
      = if k = k' then some ((dictFind? m k).getD []) else dictFind? m k' := by
  induction m with
  | nil => simp [ensure, dictFind?]
  | cons p rest ih =>
      obtain ⟨k₀, vs⟩ := p
      by_cases h0 : k₀ = k
      · subst h0
        by_cases h : k₀ = k' <;> simp [ensure, dictFind?, h]
      · by_cases h : k₀ = k'
        · subst h
          have hne : ¬ k = k₀ := fun hc => h0 hc.symm
          simp [ensure, dictFind?, h0, hne]
        · simp [ensure, dictFind?, h0, h, ih]

/-- One entry of the reverse-map loop inside
`MedicalCodingAssistant._update_diagnosis_pointers`: for every procedure code
in the entry, ensure the reverse-map key exists, and append the diagnosis
letter when the diagnosis has one.  The letter lookup is loop invariant and is
hoisted out of the procedure-code loop. -/
def pointer_entry_step (diagnosis_letters : List (String × Char)) (dx_code : String)
    (m : List (String × List Char)) (proc_codes : List String) :
    List (String × List Char) :=
  match dictFind? diagnosis_letters dx_code with
  | some letter => proc_codes.foldl (fun acc pc => appendAt acc pc letter) m
  | none => proc_codes.foldl (fun acc pc => ensure acc pc) m

/-- The reverse map `proc_dx_map` of `_update_diagnosis_pointers`:
procedure code to the letters of the diagnoses mapped to it. -/
def build_proc_dx_map (dx_proc_map : List (String × List String))
    (diagnosis_letters : List (String × Char)) : List (String × List Char) :=
  dx_proc_map.foldl
    (fun m entry => pointer_entry_step diagnosis_letters entry.1 m entry.2) []

theorem appendAt_fold_isSome (letter : Char) (proc_codes : List String)
    (m : List (String × List Char)) (pc : String) :
    (dictFind? (proc_codes.foldl (fun acc pc' => appendAt acc pc' letter) m) pc).isSome
      ↔ (dictFind? m pc).isSome ∨ pc ∈ proc_codes := by
  induction proc_codes generalizing m with
  | nil => simp
  | cons pc' rest ih =>
      simp only [List.foldl_cons, List.mem_cons]
      rw [ih]
      rw [dictFind?_appendAt]
      by_cases h : pc' = pc
      · simp [h]
      · have hne : ¬ pc = pc' := fun hc => h hc.symm
        simp [h, hne]

theorem ensure_fold_isSome (proc_codes : List String)
    (m : List (String × List Char)) (pc : String) :
    (dictFind? (proc_codes.foldl (fun acc pc' => ensure acc pc') m) pc).isSome
      ↔ (dictFind? m pc).isSome ∨ pc ∈ proc_codes := by
  induction proc_codes generalizing m with
  | nil => simp
  | cons pc' rest ih =>
      simp only [List.foldl_cons, List.mem_cons]
      rw [ih]
      rw [dictFind?_ensure]
      by_cases h : pc' = pc
      · simp [h]
      · have hne : ¬ pc = pc' := fun hc => h hc.symm
        simp [h, hne]

theorem appendAt_fold_mem (letter : Char) (proc_codes : List String)
    (m : List (String × List Char)) (pc : String) (c : Char) (ls : List Char)
    (h : dictFind? (proc_codes.foldl (fun acc pc' => appendAt acc pc' letter) m) pc
      = some ls) :
    c ∈ ls ↔ (∃ ls₀, dictFind? m pc = some ls₀ ∧ c ∈ ls₀)
      ∨ (pc ∈ proc_codes ∧ c = letter) := by
  induction proc_codes generalizing m ls with
  | nil =>
      simp only [List.foldl_nil] at h
      simp [h]
  | cons pc' rest ih =>
      simp only [List.foldl_cons] at h
      rw [ih _ _ h]
      by_cases hpc : pc' = pc
      · rw [dictFind?_appendAt, if_pos hpc, hpc]
        cases hfind : dictFind? m pc with
        | none => simp [hfind]
        | some ls₁ =>
            simp [hfind, List.mem_append]
            tauto
      · rw [dictFind?_appendAt, if_neg hpc]
        have hne : ¬ pc = pc' := fun hc => hpc hc.symm
        simp [List.mem_cons, hne]

theorem ensure_fold_mem (proc_codes : List String)
    (m : List (String × List Char)) (pc : String) (c : Char) (ls : List Char)
    (h : dictFind? (proc_codes.foldl (fun acc pc' => ensure acc pc') m) pc = some ls) :
    c ∈ ls ↔ ∃ ls₀, dictFind? m pc = some ls₀ ∧ c ∈ ls₀ := by
  induction proc_codes generalizing m ls with
  | nil =>
      simp only [List.foldl_nil] at h
      simp [h]
  | cons pc' rest ih =>
      simp only [List.foldl_cons] at h
      rw [ih _ _ h]
      by_cases hpc : pc' = pc
      · rw [dictFind?_ensure, if_pos hpc, hpc]
        cases hfind : dictFind? m pc with
        | none => simp [hfind]
        | some ls₁ => simp [hfind]
      · rw [dictFind?_ensure, if_neg hpc]

theorem pointer_entry_step_isSome (diagnosis_letters : List (String × Char))
    (dx_code : String) (proc_codes : List String)
    (m : List (String × List Char)) (pc : String) :
    (dictFind? (pointer_entry_step diagnosis_letters dx_code m proc_codes) pc).isSome
      ↔ (dictFind? m pc).isSome ∨ pc ∈ proc_codes := by
  unfold pointer_entry_step
  cases dictFind? diagnosis_letters dx_code with
  | some letter => exact appendAt_fold_isSome letter proc_codes m pc
  | none => exact ensure_fold_isSome proc_codes m pc

theorem pointer_entry_step_mem (diagnosis_letters : List (String × Char))
    (dx_code : String) (proc_codes : List String)
    (m : List (String × List Char)) (pc : String) (c : Char) (ls : List Char)
    (h : dictFind? (pointer_entry_step diagnosis_letters dx_code m proc_codes) pc
      = some ls) :
    c ∈ ls ↔ (∃ ls₀, dictFind? m pc = some ls₀ ∧ c ∈ ls₀)
      ∨ (pc ∈ proc_codes ∧ dictFind? diagnosis_letters dx_code = some c) := by
  unfold pointer_entry_step at h
  cases hlet : dictFind? diagnosis_letters dx_code with
  | some letter =>
      rw [hlet] at h
      rw [appendAt_fold_mem letter proc_codes m pc c ls h]
      constructor
      · rintro (h' | ⟨hmem, hcl⟩)
        · exact Or.inl h'
        · exact Or.inr ⟨hmem, by rw [hcl]⟩
      · rintro (h' | ⟨hmem, hcl⟩)
        · exact Or.inl h'
        · exact Or.inr ⟨hmem, (Option.some.inj hcl).symm⟩
  | none =>
      rw [hlet] at h
      rw [ensure_fold_mem proc_codes m pc c ls h]
      simp

theorem pointer_entry_step_mem_exists (diagnosis_letters : List (String × Char))
    (dx_code : String) (proc_codes : List String)
    (m : List (String × List Char)) (pc : String) (c : Char) :
    (∃ ls, dictFind? (pointer_entry_step diagnosis_letters dx_code m proc_codes) pc
        = some ls ∧ c ∈ ls)
      ↔ (∃ ls₀, dictFind? m pc = some ls₀ ∧ c ∈ ls₀)
        ∨ (pc ∈ proc_codes ∧ dictFind? diagnosis_letters dx_code = some c) := by
  constructor
  · rintro ⟨ls, hls, hc⟩
    exact (pointer_entry_step_mem diagnosis_letters dx_code proc_codes m pc c ls hls).mp hc
  · intro h'
    have hsome : (dictFind? (pointer_entry_step diagnosis_letters dx_code m proc_codes)
        pc).isSome := by
      rw [pointer_entry_step_isSome]
      rcases h' with ⟨ls₀, hls₀, _⟩ | ⟨hmem, _⟩
      · exact Or.inl (by simp [hls₀])
      · exact Or.inr hmem
    obtain ⟨ls, hls⟩ := Option.isSome_iff_exists.mp hsome
    exact ⟨ls, hls,
      (pointer_entry_step_mem diagnosis_letters dx_code proc_codes m pc c ls hls).mpr h'⟩

theorem build_fold_isSome (dx_proc_map : List (String × List String))
    (diagnosis_letters : List (String × Char)) (m : List (String × List Char))
    (pc : String) :
    (dictFind? (dx_proc_map.foldl
        (fun m entry => pointer_entry_step diagnosis_letters entry.1 m entry.2) m) pc).isSome
      ↔ (dictFind? m pc).isSome ∨ ∃ entry ∈ dx_proc_map, pc ∈ entry.2 := by
  induction dx_proc_map generalizing m with
  | nil => simp
  | cons entry rest ih =>
      simp only [List.foldl_cons]
      rw [ih, pointer_entry_step_isSome]
      simp only [List.mem_cons]
      constructor
      · rintro ((h | h) | ⟨e, he, hpc⟩)
        · exact Or.inl h
        · exact Or.inr ⟨entry, Or.inl rfl, h⟩
        · exact Or.inr ⟨e, Or.inr he, hpc⟩
      · rintro (h | ⟨e, (he | he), hpc⟩)
        · exact Or.inl (Or.inl h)
        · exact Or.inl (Or.inr (he ▸ hpc))
        · exact Or.inr ⟨e, he, hpc⟩

theorem build_fold_mem (dx_proc_map : List (String × List String))
    (diagnosis_letters : List (String × Char)) (m : List (String × List Char))
    (pc : String) (c : Char) (ls : List Char)
    (h : dictFind? (dx_proc_map.foldl
        (fun m entry => pointer_entry_step diagnosis_letters entry.1 m entry.2) m) pc
      = some ls) :
    c ∈ ls ↔ (∃ ls₀, dictFind? m pc = some ls₀ ∧ c ∈ ls₀)
      ∨ ∃ entry ∈ dx_proc_map, pc ∈ entry.2
          ∧ dictFind? diagnosis_letters entry.1 = some c := by
  induction dx_proc_map generalizing m ls with
  | nil =>
      simp only [List.foldl_nil] at h
      simp [h]
  | cons entry rest ih =>
      simp only [List.foldl_cons] at h
      rw [ih _ _ h, pointer_entry_step_mem_exists]
      simp only [List.mem_cons]
      constructor
      · rintro ((h' | h') | ⟨e, he, hpc, hl⟩)
        · exact Or.inl h'
        · exact Or.inr ⟨entry, Or.inl rfl, h'⟩
        · exact Or.inr ⟨e, Or.inr he, hpc, hl⟩
      · rintro (h' | ⟨e, (he | he), hpc, hl⟩)
        · exact Or.inl (Or.inl h')
        · subst he
          exact Or.inl (Or.inr ⟨hpc, hl⟩)
        · exact Or.inr ⟨e, he, hpc, hl⟩

theorem build_isSome (dx_proc_map : List (String × List String))
    (diagnosis_letters : List (String × Char)) (pc : String) :
    (dictFind? (build_proc_dx_map dx_proc_map diagnosis_letters) pc).isSome
      ↔ ∃ entry ∈ dx_proc_map, pc ∈ entry.2 := by
  unfold build_proc_dx_map
  rw [build_fold_isSome]
  simp [dictFind?]

theorem build_mem (dx_proc_map : List (String × List String))
    (diagnosis_letters : List (String × Char)) (pc : String) (c : Char) (ls : List Char)
    (h : dictFind? (build_proc_dx_map dx_proc_map diagnosis_letters) pc = some ls) :
    c ∈ ls ↔ ∃ entry ∈ dx_proc_map, pc ∈ entry.2
        ∧ dictFind? diagnosis_letters entry.1 = some c := by
  unfold build_proc_dx_map at h
  rw [build_fold_mem dx_proc_map diagnosis_letters [] pc c ls h]
  simp [dictFind?]

/-- Insertion into a strictly sorted list of letters, dropping duplicates. -/
def insertSorted (x : Char) : List Char → List Char
  | [] => [x]
  | y :: rest =>
      if x < y then x :: y :: rest
      else if x = y then y :: rest
      else y :: insertSorted x rest

/-- Python `sorted(set(l))` on a list of letters: the strictly increasing
enumeration of the distinct elements. -/
def sorted_set (l : List Char) : List Char := l.foldr insertSorted []

theorem mem_insertSorted (x : Char) (l : List Char) (a : Char) :
    a ∈ insertSorted x l ↔ a = x ∨ a ∈ l := by
  induction l with
  | nil => simp [insertSorted]
  | cons y rest ih =>
      by_cases h1 : x < y
      · simp [insertSorted, h1]
      · by_cases h2 : x = y
        · subst h2
          simp [insertSorted, h1]
        · simp [insertSorted, h1, h2, ih]
          tauto

theorem pairwise_insertSorted (x : Char) (l : List Char)
    (h : l.Pairwise (· < ·)) : (insertSorted x l).Pairwise (· < ·) := by
  induction l with
  | nil => simp [insertSorted]
  | cons y rest ih =>
      rw [List.pairwise_cons] at h
      by_cases h1 : x < y
      · rw [insertSorted, if_pos h1, List.pairwise_cons]
        refine ⟨?_, List.pairwise_cons.mpr h⟩
        intro a ha
        rcases List.mem_cons.mp ha with ha | ha
        · exact ha ▸ h1
        · exact lt_trans h1 (h.1 a ha)
      · by_cases h2 : x = y
        · rw [insertSorted, if_neg h1, if_pos h2]
          exact List.pairwise_cons.mpr h
        · rw [insertSorted, if_neg h1, if_neg h2, List.pairwise_cons]
          refine ⟨?_, ih h.2⟩
          intro a ha
          rcases (mem_insertSorted x rest a).mp ha with ha | ha
          · subst ha
            rcases lt_trichotomy a y with hlt | heq | hgt
            · exact absurd hlt h1
            · exact absurd heq h2
            · exact hgt
          · exact h.1 a ha

theorem sorted_set_pairwise (l : List Char) : (sorted_set l).Pairwise (· < ·) := by
  induction l with
  | nil => exact List.Pairwise.nil
  | cons x rest ih => exact pairwise_insertSorted x (sorted_set rest) ih

theorem mem_sorted_set (l : List Char) (a : Char) : a ∈ sorted_set l ↔ a ∈ l := by
  induction l with
  | nil => simp [sorted_set]
  | cons x rest ih =>
      simp only [sorted_set, List.foldr_cons]
      rw [mem_insertSorted]
      simp only [List.mem_cons]
      rw [show (sorted_set rest = rest.foldr insertSorted []) from rfl] at ih
      rw [ih]

/-- `MedicalCodingAssistant._update_diagnosis_pointers` from
src/core/coding.py: rebuild the reverse procedure-to-letters map and write
`sorted(set(letters))` into the metadata of every procedure whose code has an
entry; other procedures are left untouched. -/
def update_diagnosis_pointers (procedures : List CodeSuggestion)
    (dx_proc_map : List (String × List String))
    (diagnosis_letters : List (String × Char)) : List CodeSuggestion :=
  let proc_dx_map := build_proc_dx_map dx_proc_map diagnosis_letters
  procedures.map (fun proc =>
    match dictFind? proc_dx_map proc.code with
    | some ls =>
        { proc with metadata :=
            { proc.metadata with diagnosis_pointers := some (sorted_set ls) } }
    | none => proc)

/-- C8: the pointer back-fill step is idempotent, and for every procedure
whose code is mapped to by some diagnosis the written `diagnosis_pointers`
metadata is the strictly sorted (hence deduplicated) enumeration of exactly
the letters of the diagnoses mapped to that procedure. -/
theorem update_diagnosis_pointers_spec (procedures : List CodeSuggestion)
    (dx_proc_map : List (String × List String))
    (diagnosis_letters : List (String × Char)) :
    update_diagnosis_pointers
        (update_diagnosis_pointers procedures dx_proc_map diagnosis_letters)
        dx_proc_map diagnosis_letters
      = update_diagnosis_pointers procedures dx_proc_map diagnosis_letters
    ∧ ∀ p ∈ update_diagnosis_pointers procedures dx_proc_map diagnosis_letters,
        (∃ entry ∈ dx_proc_map, p.code ∈ entry.2) →
        ∃ written, p.metadata.diagnosis_pointers = some written
          ∧ written.Pairwise (· < ·)
          ∧ ∀ c : Char, c ∈ written ↔
              ∃ entry ∈ dx_proc_map, p.code ∈ entry.2
                ∧ dictFind? diagnosis_letters entry.1 = some c := by
  constructor
  · unfold update_diagnosis_pointers
    rw [List.map_map]
    apply List.map_congr_left
    intro p _
    simp only [Function.comp]
    cases hfind : dictFind? (build_proc_dx_map dx_proc_map diagnosis_letters) p.code with
    | none => simp [hfind]
    | some ls => simp [hfind]
  · intro p hp hentry
    unfold update_diagnosis_pointers at hp
    obtain ⟨q, hq, hqp⟩ := List.mem_map.mp hp
    have hcode : p.code = q.code := by
      cases hfind : dictFind? (build_proc_dx_map dx_proc_map diagnosis_letters) q.code with
      | none => rw [← hqp]; simp [hfind]
      | some ls => rw [← hqp]; simp [hfind]
    have hsome : (dictFind? (build_proc_dx_map dx_proc_map diagnosis_letters) q.code).isSome := by
      rw [build_isSome]
      rw [← hcode]
      exact hentry
    cases hfind : dictFind? (build_proc_dx_map dx_proc_map diagnosis_letters) q.code with
    | none => rw [hfind] at hsome; cases hsome
    | some ls =>
        have hp_eq : p = { q with metadata :=
            { q.metadata with diagnosis_pointers := some (sorted_set ls) } } := by
          rw [← hqp]
          simp [hfind]
        refine ⟨sorted_set ls, by rw [hp_eq], sorted_set_pairwise ls, ?_⟩
        intro c
        rw [mem_sorted_set]
        rw [build_mem dx_proc_map diagnosis_letters q.code c ls hfind]
        rw [hcode]

/-- Witness for C8: one procedure 99213 mapped from diagnosis J20.9 with
letter A receives pointers consisting exactly of the letter A. -/
theorem update_diagnosis_pointers_spec_witness :
    ∃ written,
      ({ code := "99213", code_type := "CPT", confidence := 1,
         metadata := { diagnosis_pointers := some ['A'] } } : CodeSuggestion
        ).metadata.diagnosis_pointers = some written
      ∧ written.Pairwise (· < ·)
      ∧ ∀ c : Char, c ∈ written ↔
          ∃ entry ∈ [("J20.9", ["99213"])],
            ({ code := "99213", code_type := "CPT", confidence := 1,
               metadata := { diagnosis_pointers := some ['A'] } } : CodeSuggestion).code ∈ entry.2
            ∧ dictFind? [("J20.9", 'A')] entry.1 = some c :=
  (update_diagnosis_pointers_spec
      [{ code := "99213", code_type := "CPT", confidence := 1 }]
      [("J20.9", ["99213"])] [("J20.9", 'A')]).2
    { code := "99213", code_type := "CPT", confidence := 1,
      metadata := { diagnosis_pointers := some ['A'] } }
    (by decide) ⟨("J20.9", ["99213"]), by decide, by decide⟩

/-- Item 21 ICD indicator enum from src/cms1500/schema.py. -/
inductive ICDIndicator where
  | icd10
  | icd9
deriving Repr, DecidableEq

/-- The string value of the indicator ("0" for ICD-10, "9" for ICD-9). -/
def icdIndicatorStr : ICDIndicator → String
  | .icd10 => "0"
  | .icd9 => "9"

/-- `ServiceLineInfo` from src/cms1500/schema.py (item 24). -/
structure ServiceLineInfo where
  date_from : String
  date_to : Option String := none
  place_of_service : String
  emg : Option String := none
  cpt_hcpcs : String
  modifier1 : Option String := none
  modifier2 : Option String := none
  modifier3 : Option String := none
  modifier4 : Option String := none
  diagnosis_pointer : String
  charges : ℚ
  days_or_units : ℕ := 1
  epsdt_family_plan : Option String := none
  id_qualifier : Option String := none
  rendering_provider_id : Option String := none
deriving Repr, DecidableEq

/-- Length bound check on an optional string field. -/
def optTooLong (o : Option String) (n : ℕ) : Bool :=
  match o with
  | none => false
  | some s => n < s.length

/-- pydantic construction of a `ServiceLineInfo`: field constraints
(max lengths, charges ge 0, days_or_units ge 1) and the
`validate_diagnosis_pointer` validator, which raises on the first character of
`diagnosis_pointer` outside A-L.  Errors are collected as pydantic v2 does. -/
def serviceLineErrors (line : ServiceLineInfo) : List String :=
  (if 2 < line.place_of_service.length then ["place_of_service: string too long"] else [])
  ++ (if optTooLong line.emg 1 then ["emg: string too long"] else [])
  ++ (if optTooLong line.modifier1 2 then ["modifier1: string too long"] else [])
  ++ (if optTooLong line.modifier2 2 then ["modifier2: string too long"] else [])
  ++ (if optTooLong line.modifier3 2 then ["modifier3: string too long"] else [])
  ++ (if optTooLong line.modifier4 2 then ["modifier4: string too long"] else [])
  ++ (match line.diagnosis_pointer.toList.find? (fun ch => !(cmsLetters.contains ch)) with
      | some ch => ["Invalid diagnosis pointer: " ++ String.mk [ch] ++ ". Must be A-L."]
      | none => [])
  ++ (if line.charges < 0 then ["charges: input should be greater than or equal to 0"] else [])
  ++ (if line.days_or_units < 1 then ["days_or_units: input should be greater than or equal to 1"] else [])
  ++ (if optTooLong line.id_qualifier 2 then ["id_qualifier: string too long"] else [])

def mkServiceLineInfo (line : ServiceLineInfo) : Except (List String) ServiceLineInfo :=
  match serviceLineErrors line with
  | [] => .ok line
  | errs => .error errs

/-- `CMS1500Claim` from src/cms1500/schema.py, restricted to the fields the
claim generator writes and the validator reads. -/
structure CMS1500Claim where
  insured_id_number : String
  patient_last_name : String
  patient_first_name : String
  patient_middle_initial : Option String := none
  patient_dob : String
  patient_sex : String
  insured_name : Option String := none
  patient_address : Option String := none
  patient_city : Option String := none
  patient_state : Option String := none
  patient_zip : Option String := none
  patient_phone : Option String := none
  patient_relationship_self : Bool := false
  patient_relationship_spouse : Bool := false
  patient_relationship_child : Bool := false
  patient_relationship_other : Bool := false
  insured_address : Option String := none
  insured_city : Option String := none
  insured_state : Option String := none
  insured_zip : Option String := none
  insured_phone : Option String := none
  condition_related_auto_accident : Option Bool := none
  auto_accident_state : Option String := none
  insured_policy_group : Option String := none
  insurance_plan_name : Option String := none
  referring_provider_name : Option String := none
  referring_provider_npi : Option String := none
  icd_indicator : ICDIndicator
  diagnosis_a : Option String := none
  diagnosis_b : Option String := none
  diagnosis_c : Option String := none
  diagnosis_d : Option String := none
  diagnosis_e : Option String := none
  diagnosis_f : Option String := none
  diagnosis_g : Option String := none
  diagnosis_h : Option String := none
  diagnosis_i : Option String := none
  diagnosis_j : Option String := none
  diagnosis_k : Option String := none
  diagnosis_l : Option String := none
  prior_authorization_number : Option String := none
  service_lines : List ServiceLineInfo := []
  federal_tax_id : Option String := none
  tax_id_type_ssn : Bool := false
  tax_id_type_ein : Bool := false
  total_charge : ℚ := 0
  amount_paid : Option ℚ := none
  service_facility_name : Option String := none
  service_facility_address : Option String := none
  service_facility_city : Option String := none
  service_facility_state : Option String := none
  service_facility_zip : Option String := none
  service_facility_npi : Option String := none
  billing_provider_name : Option String := none
  billing_provider_address : Option String := none
  billing_provider_city : Option String := none
  billing_provider_state : Option String := none
  billing_provider_zip : Option String := none
  billing_provider_phone : Option String := none
  billing_provider_npi : Option String := none
deriving Repr, DecidableEq

/-- The keyword-argument dict passed to the `CMS1500Claim` pydantic
constructor: every key optional (absent keys fall back to field defaults). -/
structure ClaimData where
  insured_id_number : Option String := none
  patient_last_name : Option String := none
  patient_first_name : Option String := none
  patient_middle_initial : Option String := none
  patient_dob : Option String := none
  patient_sex : Option String := none
  insured_name : Option String := none
  patient_address : Option String := none
  patient_city : Option String := none
  patient_state : Option String := none
  patient_zip : Option String := none
  patient_phone : Option String := none
  patient_relationship_self : Option Bool := none
  patient_relationship_spouse : Option Bool := none
  patient_relationship_child : Option Bool := none
  patient_relationship_other : Option Bool := none
  insured_address : Option String := none
  insured_city : Option String := none
  insured_state : Option String := none
  insured_zip : Option String := none
  insured_phone : Option String := none
  condition_related_auto_accident : Option Bool := none
  auto_accident_state : Option String := none
  insured_policy_group : Option String := none
  insurance_plan_name : Option String := none
  referring_provider_name : Option String := none
  referring_provider_npi : Option String := none
  icd_indicator : Option ICDIndicator := none
  diagnosis_a : Option String := none
  diagnosis_b : Option String := none
  diagnosis_c : Option String := none
  diagnosis_d : Option String := none
  diagnosis_e : Option String := none
  diagnosis_f : Option String := none
  diagnosis_g : Option String := none
  diagnosis_h : Option String := none
  diagnosis_i : Option String := none
  diagnosis_j : Option String := none
  diagnosis_k : Option String := none
  diagnosis_l : Option String := none
  prior_authorization_number : Option String := none
  service_lines : Option (List ServiceLineInfo) := none
  federal_tax_id : Option String := none
  tax_id_type_ssn : Option Bool := none
  tax_id_type_ein : Option Bool := none
  total_charge : Option ℚ := none
  amount_paid : Option ℚ := none
  service_facility_name : Option String := none
  service_facility_address : Option String := none
  service_facility_city : Option String := none
  service_facility_state : Option String := none
  service_facility_zip : Option String := none
  service_facility_npi : Option String := none
  billing_provider_name : Option String := none
  billing_provider_address : Option String := none
  billing_provider_city : Option String := none
  billing_provider_state : Option String := none
  billing_provider_zip : Option String := none
  billing_provider_phone : Option String := none
  billing_provider_npi : Option String := none
deriving Repr, DecidableEq

/-- Missing-required-field check of the pydantic constructor. -/
def requiredError {α : Type} (o : Option α) (name : String) : List String :=
  match o with
  | none => [name ++ ": field required"]
  | some _ => []

/-- String `pattern=` constraint check on a provided optional field (pydantic
v2 enforces `pattern` on non-`None` values only). -/
def patternError (o : Option String) (ok : String → Bool) (name : String) : List String :=
  match o with
  | none => []
  | some s => if ok s then [] else [name ++ ": string should match pattern"]

/-- `^\d{10}$` (NPI fields). -/
def isNpi10 (s : String) : Bool :=
  s.length == 10 && s.toList.all Char.isDigit

/-- `^[MFU]$` (sex fields). -/
def isSexMFU (s : String) : Bool :=
  s == "M" || s == "F" || s == "U"

/-- max_length 2 state fields. -/
def stateLenError (o : Option String) (name : String) : List String :=
  if optTooLong o 2 then [name ++ ": string too long"] else []

/-- The construction-time validation errors of `CMS1500Claim(**claim_data)`
under pydantic v2: required fields, `pattern=` and `max_length` constraints,
the `max_items=6` bound, and the v1-style `validate_service_lines` validator.
The service-lines validator runs only when the field is supplied; an omitted
field takes the default empty list without validation (v1-style validators do
not run on defaults). -/
def claimDataErrors (d : ClaimData) : List String :=
  requiredError d.insured_id_number "insured_id_number"
  ++ requiredError d.patient_last_name "patient_last_name"
  ++ requiredError d.patient_first_name "patient_first_name"
  ++ (if optTooLong d.patient_middle_initial 1
      then ["patient_middle_initial: string too long"] else [])
  ++ requiredError d.patient_dob "patient_dob"
  ++ requiredError d.patient_sex "patient_sex"
  ++ patternError d.patient_sex isSexMFU "patient_sex"
  ++ stateLenError d.patient_state "patient_state"
  ++ stateLenError d.insured_state "insured_state"
  ++ stateLenError d.auto_accident_state "auto_accident_state"
  ++ patternError d.referring_provider_npi isNpi10 "referring_provider_npi"
  ++ requiredError d.icd_indicator "icd_indicator"
  ++ (match d.service_lines with
      | none => []
      | some ls =>
          (if 6 < ls.length then ["service_lines: max_items 6"] else [])
          ++ (if ls = [] then ["At least one service line required"]
              else if 6 < ls.length then ["Maximum 6 service lines allowed"] else []))
  ++ (match d.total_charge with
      | none => []
      | some t => if t < 0 then ["total_charge: input should be greater than or equal to 0"] else [])
  ++ (match d.amount_paid with
      | none => []
      | some t => if t < 0 then ["amount_paid: input should be greater than or equal to 0"] else [])
  ++ stateLenError d.service_facility_state "service_facility_state"
  ++ patternError d.service_facility_npi isNpi10 "service_facility_npi"
  ++ stateLenError d.billing_provider_state "billing_provider_state"
  ++ patternError d.billing_provider_npi isNpi10 "billing_provider_npi"

/-- The claim value assembled when construction succeeds; the `total_charge`
validator replaces a non-positive supplied value by the sum over the supplied
service lines. -/
def claimOfData (d : ClaimData) : CMS1500Claim :=
  { insured_id_number := d.insured_id_number.getD ""
    patient_last_name := d.patient_last_name.getD ""
    patient_first_name := d.patient_first_name.getD ""
    patient_middle_initial := d.patient_middle_initial
    patient_dob := d.patient_dob.getD ""
    patient_sex := d.patient_sex.getD ""
    insured_name := d.insured_name
    patient_address := d.patient_address
    patient_city := d.patient_city
    patient_state := d.patient_state
    patient_zip := d.patient_zip
    patient_phone := d.patient_phone
    patient_relationship_self := d.patient_relationship_self.getD false
    patient_relationship_spouse := d.patient_relationship_spouse.getD false
    patient_relationship_child := d.patient_relationship_child.getD false
    patient_relationship_other := d.patient_relationship_other.getD false
    insured_address := d.insured_address
    insured_city := d.insured_city
    insured_state := d.insured_state
    insured_zip := d.insured_zip
    insured_phone := d.insured_phone
    condition_related_auto_accident := d.condition_related_auto_accident
    auto_accident_state := d.auto_accident_state
    insured_policy_group := d.insured_policy_group
    insurance_plan_name := d.insurance_plan_name
    referring_provider_name := d.referring_provider_name
    referring_provider_npi := d.referring_provider_npi
    icd_indicator := d.icd_indicator.getD ICDIndicator.icd10
    diagnosis_a := d.diagnosis_a
    diagnosis_b := d.diagnosis_b
    diagnosis_c := d.diagnosis_c
    diagnosis_d := d.diagnosis_d
    diagnosis_e := d.diagnosis_e
    diagnosis_f := d.diagnosis_f
    diagnosis_g := d.diagnosis_g
    diagnosis_h := d.diagnosis_h
    diagnosis_i := d.diagnosis_i
    diagnosis_j := d.diagnosis_j
    diagnosis_k := d.diagnosis_k
    diagnosis_l := d.diagnosis_l
    prior_authorization_number := d.prior_authorization_number
    service_lines := d.service_lines.getD []
    federal_tax_id := d.federal_tax_id
    tax_id_type_ssn := d.tax_id_type_ssn.getD false
    tax_id_type_ein := d.tax_id_type_ein.getD false
    total_charge :=
      match d.total_charge with
      | none => 0
      | some t =>
          if (d.service_lines.getD []) ≠ [] then
            if 0 < t then t
            else ((d.service_lines.getD []).map
              (fun line => line.charges * (line.days_or_units : ℚ))).sum
          else t
    amount_paid := d.amount_paid
    service_facility_name := d.service_facility_name
    service_facility_address := d.service_facility_address
    service_facility_city := d.service_facility_city
    service_facility_state := d.service_facility_state
    service_facility_zip := d.service_facility_zip
    service_facility_npi := d.service_facility_npi
    billing_provider_name := d.billing_provider_name
    billing_provider_address := d.billing_provider_address
    billing_provider_city := d.billing_provider_city
    billing_provider_state := d.billing_provider_state
    billing_provider_zip := d.billing_provider_zip
    billing_provider_phone := d.billing_provider_phone
    billing_provider_npi := d.billing_provider_npi }

/-- `CMS1500Claim(**claim_data)`: raise a validation error when any check
fails, otherwise produce the claim value. -/
def mkCMS1500Claim (d : ClaimData) : Except (List String) CMS1500Claim :=
  match claimDataErrors d with
  | [] => .ok (claimOfData d)
  | errs => .error errs

/-- Whether an `Except` value is a success. -/
def exceptOk {ε α : Type} : Except ε α → Bool
  | .ok _ => true
  | .error _ => false

/-- `ValidationMessage` from src/cms1500/rules.py. -/
structure ValidationMessage where
  field : String
  severity : String
  message : String
  rule_id : String
  suggestion : Option String := none
deriving Repr, DecidableEq

/-- `ValidationResult` from src/cms1500/rules.py. -/
structure ValidationResult where
  valid : Bool
  messages : List ValidationMessage := []
  warnings_count : ℕ := 0
  errors_count : ℕ := 0
  info_count : ℕ := 0
deriving Repr, DecidableEq

/-- `ValidationResult.add_message`: append the finding and bump its severity
count; an error severity also clears `valid`. -/
def add_message (r : ValidationResult) (msg : ValidationMessage) : ValidationResult :=
  let r := { r with messages := r.messages ++ [msg] }
  if msg.severity = "error" then
    { r with errors_count := r.errors_count + 1, valid := false }
  else if msg.severity = "warning" then
    { r with warnings_count := r.warnings_count + 1 }
  else
    { r with info_count := r.info_count + 1 }

/-- Plain finding constructor (field, severity, message, rule id). -/
def vmsg (f sev msg rid : String) : ValidationMessage :=
  { field := f, severity := sev, message := msg, rule_id := rid }

/-- `re.match` date patterns of `_validate_date_format`: two digits, a
separator, two digits, the separator, four digits. -/
def dateSep (sep : Char → Bool) (s : String) : Bool :=
  match s.toList with
  | [a, b, c, d, e, f, g, h, i, j] =>
      a.isDigit && b.isDigit && sep c && d.isDigit && e.isDigit && sep f
        && g.isDigit && h.isDigit && i.isDigit && j.isDigit
  | _ => false

/-- `CMS1500Validator._validate_date_format`: MM DD YYYY with space, slash or
hyphen separators. -/
def validate_date_format (s : String) : Bool :=
  dateSep (fun ch => ch.isWhitespace) s
    || dateSep (fun ch => ch == '/') s
    || dateSep (fun ch => ch == '-') s

/-- `CMS1500Validator._validate_icd10_format`: a letter A-T or V-Z, two
digits, optionally a dot and one to four digits. -/
def validate_icd10_format (s : String) : Bool :=
  match s.toList with
  | c :: d1 :: d2 :: rest =>
      (decide (('A' ≤ c ∧ c ≤ 'T') ∨ ('V' ≤ c ∧ c ≤ 'Z')))
        && d1.isDigit && d2.isDigit
        && (match rest with
            | [] => true
            | '.' :: ds =>
                decide (1 ≤ ds.length) && decide (ds.length ≤ 4) && ds.all Char.isDigit
            | _ => false)
  | _ => false

/-- `CMS1500Validator._validate_cpt_hcpcs`: five digits, or an uppercase
letter and four digits. -/
def validate_cpt_hcpcs (s : String) : Bool :=
  match s.toList with
  | [a, b, c, d, e] =>
      (a.isDigit && b.isDigit && c.isDigit && d.isDigit && e.isDigit)
        || (decide ('A' ≤ a ∧ a ≤ 'Z') && b.isDigit && c.isDigit && d.isDigit && e.isDigit)
  | _ => false

/-- `^\d{2}$` (place of service). -/
def isTwoDigits (s : String) : Bool :=
  match s.toList with
  | [a, b] => a.isDigit && b.isDigit
  | _ => false

/-- The twelve item-21 diagnosis slots in order. -/
def diagSlots (c : CMS1500Claim) : List (Option String) :=
  [c.diagnosis_a, c.diagnosis_b, c.diagnosis_c, c.diagnosis_d, c.diagnosis_e,
   c.diagnosis_f, c.diagnosis_g, c.diagnosis_h, c.diagnosis_i, c.diagnosis_j,
   c.diagnosis_k, c.diagnosis_l]

/-- `CMS1500Claim.get_diagnoses_list`: the truthy diagnosis codes A-L in
order. -/
def get_diagnoses_list (c : CMS1500Claim) : List String :=
  (diagSlots c).filterMap (fun o =>
    match o with
    | some s => if s = "" then none else some s
    | none => none)

/-- The letters whose diagnosis slot is truthy (the `valid_letters` set of
`_validate_diagnosis_pointers`). -/
def valid_letters (c : CMS1500Claim) : List Char :=
  (cmsLetters.zip (diagSlots c)).filterMap
    (fun p => if truthyStr p.2 then some p.1 else none)

/-- `_validate_required_fields`.  The `icd_indicator` entry never fires: the
enum values "0" and "9" are truthy strings. -/
def check_required_fields (c : CMS1500Claim) : List ValidationMessage :=
  (if c.insured_id_number = "" then
    [vmsg "1a" "error" "Insured's ID Number is required" "NUCC-1a-REQ"] else [])
  ++ (if c.patient_last_name = "" then
    [vmsg "2" "error" "Patient Last Name is required" "NUCC-2-REQ"] else [])
  ++ (if c.patient_first_name = "" then
    [vmsg "2" "error" "Patient First Name is required" "NUCC-2-REQ"] else [])
  ++ (if c.patient_dob = "" then
    [vmsg "3" "error" "Patient Date of Birth is required" "NUCC-3-REQ"] else [])
  ++ (if c.patient_sex = "" then
    [vmsg "3" "error" "Patient Sex is required" "NUCC-3-REQ"] else [])
  ++ (if icdIndicatorStr c.icd_indicator = "" then
    [vmsg "21" "error" "ICD Indicator is required" "NUCC-21-REQ"] else [])
  ++ (if !truthyStr c.billing_provider_npi then
    [vmsg "33a" "error" "Billing Provider NPI is required" "NUCC-33a-REQ"] else [])

/-- `_validate_item_1a`. -/
def check_item_1a (c : CMS1500Claim) : List ValidationMessage :=
  if c.insured_id_number ≠ "" ∧ 29 < c.insured_id_number.length then
    [vmsg "1a" "error" "Insured's ID cannot exceed 29 characters" "NUCC-1a-LEN"]
  else []

/-- `_validate_item_2_3`. -/
def check_item_2_3 (c : CMS1500Claim) : List ValidationMessage :=
  (if 35 < c.patient_last_name.length then
    [vmsg "2" "error" "Patient last name exceeds 35 characters" "NUCC-2-LEN"] else [])
  ++ (if c.patient_dob ≠ "" ∧ ¬ validate_date_format c.patient_dob then
    [vmsg "3" "error" "Patient DOB must be in MM DD YYYY format" "NUCC-3-FMT"] else [])
  ++ (if c.patient_sex ∉ ["M", "F", "U"] then
    [vmsg "3" "error" "Patient sex must be M, F, or U" "NUCC-3-SEX"] else [])

/-- `_validate_item_6`. -/
def check_item_6 (c : CMS1500Claim) : List ValidationMessage :=
  let rels := [c.patient_relationship_self, c.patient_relationship_spouse,
    c.patient_relationship_child, c.patient_relationship_other]
  (if ¬ rels.any id then
    [vmsg "6" "error" "Patient relationship to insured must be specified" "NUCC-6-REQ"]
   else [])
  ++ (if 1 < (rels.filter id).length then
    [vmsg "6" "error" "Only one relationship can be selected" "NUCC-6-EXCL"] else [])

/-- `_validate_item_10`. -/
def check_item_10 (c : CMS1500Claim) : List ValidationMessage :=
  if c.condition_related_auto_accident = some true ∧ ¬ truthyStr c.auto_accident_state then
    [vmsg "10b" "error" "State code required when auto accident is checked" "NUCC-10b-STATE"]
  else []

/-- `_validate_item_11`. -/
def check_item_11 (c : CMS1500Claim) : List ValidationMessage :=
  if ¬ c.patient_relationship_self ∧ ¬ truthyStr c.insured_name then
    [vmsg "4" "warning" "Insured's name recommended when patient is not self" "NUCC-4-REC"]
  else []

/-- `_validate_item_17`. -/
def check_item_17 (c : CMS1500Claim) : List ValidationMessage :=
  (if truthyStr c.referring_provider_name ∧ ¬ truthyStr c.referring_provider_npi then
    [vmsg "17b" "warning" "Referring provider NPI recommended when name is provided"
      "NUCC-17b-REC"]
   else [])
  ++ (if truthyStr c.referring_provider_npi
        ∧ ¬ isNpi10 (c.referring_provider_npi.getD "") then
    [vmsg "17b" "error" "Referring provider NPI must be 10 digits" "NUCC-17b-FMT"] else [])

/-- `_validate_item_21`. -/
def check_item_21 (c : CMS1500Claim) : List ValidationMessage :=
  (if c.icd_indicator ≠ ICDIndicator.icd10 then
    [vmsg "21" "warning" "ICD-9 is deprecated; should use ICD-10 (indicator 0)"
      "CMS-21-ICD10"]
   else [])
  ++ (if get_diagnoses_list c = [] then
    [vmsg "21" "error" "At least one diagnosis code required" "NUCC-21-REQ"] else [])
  ++ ((get_diagnoses_list c).enum.filterMap (fun p =>
      if ¬ validate_icd10_format p.2 then
        some (vmsg ("21" ++ String.mk [Char.ofNat (65 + p.1)]) "error"
          ("Invalid ICD-10 format: " ++ p.2) "CMS-21-ICD10-FMT")
      else none))

/-- `_validate_item_23`. -/
def check_item_23 (c : CMS1500Claim) : List ValidationMessage :=
  if truthyStr c.prior_authorization_number
      ∧ 30 < (c.prior_authorization_number.getD "").length then
    [vmsg "23" "warning" "Prior authorization number exceeds typical length" "NUCC-23-LEN"]
  else []

/-- Per-line findings of `_validate_item_24`. -/
def check_line_24 (idx : ℕ) (line : ServiceLineInfo) : List ValidationMessage :=
  let line_id := "24." ++ toString idx
  (if ¬ validate_date_format line.date_from then
    [vmsg (line_id ++ "A") "error"
      ("Line " ++ toString idx ++ ": Invalid date format") "NUCC-24A-FMT"] else [])
  ++ (if ¬ isTwoDigits line.place_of_service then
    [vmsg (line_id ++ "B") "error"
      ("Line " ++ toString idx ++ ": Place of Service must be 2 digits") "NUCC-24B-FMT"]
     else [])
  ++ (if ¬ validate_cpt_hcpcs line.cpt_hcpcs then
    [vmsg (line_id ++ "D") "error"
      ("Line " ++ toString idx ++ ": Invalid CPT/HCPCS code format") "NUCC-24D-FMT"]
     else [])
  ++ (if line.diagnosis_pointer = "" then
    [vmsg (line_id ++ "E") "error"
      ("Line " ++ toString idx ++ ": Diagnosis pointer required") "NUCC-24E-REQ"] else [])
  ++ (if truthyStr line.rendering_provider_id
        ∧ ¬ isNpi10 (line.rendering_provider_id.getD "") then
    [vmsg (line_id ++ "J") "warning"
      ("Line " ++ toString idx ++ ": Rendering provider ID should be 10-digit NPI")
      "NUCC-24J-NPI"]
     else [])

/-- `_validate_item_24`: one error and an early return when there is no
service line, otherwise the per-line checks with lines numbered from 1. -/
def check_item_24 (c : CMS1500Claim) : List ValidationMessage :=
  if c.service_lines = [] then
    [vmsg "24" "error" "At least one service line required" "NUCC-24-REQ"]
  else
    c.service_lines.enum.flatMap (fun p => check_line_24 (p.1 + 1) p.2)

/-- `_validate_item_25`. -/
def check_item_25 (c : CMS1500Claim) : List ValidationMessage :=
  if truthyStr c.federal_tax_id then
    let tax_id := ((c.federal_tax_id.getD "").toList.filter (fun ch => ch ≠ '-'))
    (if ¬ (tax_id.length = 9 ∧ tax_id.all Char.isDigit) then
      [vmsg "25" "error" "Federal Tax ID must be 9 digits (EIN or SSN)" "NUCC-25-FMT"]
     else [])
    ++ (if ¬ (c.tax_id_type_ein ∨ c.tax_id_type_ssn) then
      [vmsg "25" "error" "Must specify EIN or SSN checkbox" "NUCC-25-TYPE"] else [])
  else []

/-- Python abs on a rational. -/
def ratAbs (q : ℚ) : ℚ := if q < 0 then -q else q

/-- `_validate_item_28_29`: calculated total versus item 28, with one cent of
tolerance; a mismatch is a warning. -/
def check_item_28_29 (c : CMS1500Claim) : List ValidationMessage :=
  let calculated :=
    (c.service_lines.map (fun line => line.charges * (line.days_or_units : ℚ))).sum
  if 1/100 < ratAbs (c.total_charge - calculated) then
    [vmsg "28" "warning" "Total charge does not match sum of lines" "NUCC-28-CALC"]
  else []

/-- `_validate_item_32`. -/
def check_item_32 (c : CMS1500Claim) : List ValidationMessage :=
  (if truthyStr c.service_facility_name ∧ ¬ truthyStr c.service_facility_npi then
    [vmsg "32a" "error" "Service facility NPI required when facility name provided"
      "NUCC-32a-REQ"]
   else [])
  ++ (if truthyStr c.service_facility_npi
        ∧ ¬ isNpi10 (c.service_facility_npi.getD "") then
    [vmsg "32a" "error" "Service facility NPI must be 10 digits" "NUCC-32a-FMT"] else [])

/-- `_validate_item_33`. -/
def check_item_33 (c : CMS1500Claim) : List ValidationMessage :=
  (if ¬ truthyStr c.billing_provider_npi then
    [vmsg "33a" "error" "Billing provider NPI is required" "NUCC-33a-REQ"]
   else if ¬ isNpi10 (c.billing_provider_npi.getD "") then
    [vmsg "33a" "error" "Billing provider NPI must be 10 digits" "NUCC-33a-FMT"]
   else [])
  ++ (if ¬ truthyStr c.billing_provider_name then
    [vmsg "33" "warning" "Billing provider name recommended" "NUCC-33-NAME"] else [])

/-- `_validate_diagnosis_pointers`: every character of every truthy diagnosis
pointer must name a truthy diagnosis slot. -/
def check_diagnosis_pointers (c : CMS1500Claim) : List ValidationMessage :=
  c.service_lines.enum.flatMap (fun p =>
    if p.2.diagnosis_pointer ≠ "" then
      p.2.diagnosis_pointer.toList.filterMap (fun ptr =>
        if ptr ∉ valid_letters c then
          some (vmsg ("24." ++ toString (p.1 + 1) ++ "E") "error"
            ("Line " ++ toString (p.1 + 1) ++ ": Diagnosis pointer references empty diagnosis code")
            "CMS-24E-REF")
        else none)
    else [])

/-- `_validate_date_logic`: a documented no-op. -/
def check_date_logic (_ : CMS1500Claim) : List ValidationMessage := []

/-- The fixed ordered battery of checks of `CMS1500Validator.validate`. -/
def all_checks (c : CMS1500Claim) : List ValidationMessage :=
  check_required_fields c ++ check_item_1a c ++ check_item_2_3 c ++ check_item_6 c
  ++ check_item_10 c ++ check_item_11 c ++ check_item_17 c ++ check_item_21 c
  ++ check_item_23 c ++ check_item_24 c ++ check_item_25 c ++ check_item_28_29 c
  ++ check_item_32 c ++ check_item_33 c ++ check_diagnosis_pointers c
  ++ check_date_logic c

/-- `CMS1500Validator.validate`: start from a valid empty result and add the
finding of every check in order. -/
def validate (c : CMS1500Claim) : ValidationResult :=
  (all_checks c).foldl add_message { valid := true }

theorem add_message_fold (msgs : List ValidationMessage) (r : ValidationResult) :
    (msgs.foldl add_message r).messages = r.messages ++ msgs
    ∧ (msgs.foldl add_message r).errors_count
        = r.errors_count + (msgs.filter (fun m => m.severity = "error")).length
    ∧ (msgs.foldl add_message r).valid
        = (r.valid && (msgs.filter (fun m => m.severity = "error")).length == 0) := by
  induction msgs generalizing r with
  | nil => simp
  | cons m rest ih =>
      obtain ⟨ihm, ihe, ihv⟩ := ih (add_message r m)
      simp only [List.foldl_cons, List.filter_cons]
      refine ⟨?_, ?_, ?_⟩
      · rw [ihm]
        by_cases h1 : m.severity = "error" <;>
          by_cases h2 : m.severity = "warning" <;>
          simp [add_message, h1, h2]
      · rw [ihe]
        by_cases h1 : m.severity = "error"
        · simp [add_message, h1]
          omega
        · by_cases h2 : m.severity = "warning" <;> simp [add_message, h1, h2]
      · rw [ihv]
        by_cases h1 : m.severity = "error"
        · simp [add_message, h1]
        · by_cases h2 : m.severity = "warning" <;> simp [add_message, h1, h2]

/-- C5: validation runs the whole check battery in order (the result's
message list is the concatenation of every check's findings, so no check is
skipped on earlier failure), the result is invalid exactly when its error
count is positive, and once a result is invalid no further `add_message` can
make it valid again. -/
theorem validate_spec (c : CMS1500Claim) :
    (validate c).messages = all_checks c
    ∧ ((validate c).valid = false ↔ 0 < (validate c).errors_count)
    ∧ ∀ (r : ValidationResult) (m : ValidationMessage),
        r.valid = false → (add_message r m).valid = false := by
  obtain ⟨h1, h2, h3⟩ := add_message_fold (all_checks c) { valid := true }
  refine ⟨by simpa using h1, ?_, ?_⟩
  · unfold validate
    rw [h3, h2]
    generalize (List.filter (fun m => decide (m.severity = "error")) (all_checks c)).length = n
    dsimp only
    rw [Bool.true_and, Nat.zero_add, beq_eq_false_iff_ne]
    omega
  · intro r m hr
    unfold add_message
    by_cases hs1 : m.severity = "error"
    · simp [hs1]
    · by_cases hs2 : m.severity = "warning"
      · simp [hs1, hs2, hr]
      · simp [hs1, hs2, hr]

/-- The service line of the valid claim fixture of the repository test
suite. -/
def fixture_line : ServiceLineInfo :=
  { date_from := "01 15 2024"
    place_of_service := "11"
    cpt_hcpcs := "99213"
    diagnosis_pointer := "AB"
    charges := 150 }

/-- The valid claim fixture of the repository test suite
(tests/test_cms1500_rules.py). -/
def valid_claim_fixture : CMS1500Claim :=
  { insured_id_number := "1234567890A"
    patient_last_name := "Doe"
    patient_first_name := "John"
    patient_dob := "01 15 1980"
    patient_sex := "M"
    patient_relationship_self := true
    icd_indicator := .icd10
    diagnosis_a := some "J20.9"
    diagnosis_b := some "I10"
    service_lines := [fixture_line]
    federal_tax_id := some "123456789"
    tax_id_type_ein := true
    billing_provider_npi := some "1234567890"
    total_charge := 150 }

/-- Witness for C5 at the valid test claim of the repository suite plus a
concrete already-invalid result. -/
theorem validate_spec_witness :
    ((validate valid_claim_fixture).valid = false
      ↔ 0 < (validate valid_claim_fixture).errors_count)
    ∧ (add_message { valid := false } (vmsg "21" "info" "note" "X")).valid = false :=
  ⟨(validate_spec valid_claim_fixture).2.1,
   (validate_spec valid_claim_fixture).2.2
     { valid := false } (vmsg "21" "info" "note" "X") rfl⟩

/-- Claim-constructor input with every required scalar field present and the
`service_lines` key omitted. -/
def minimal_claim_data : ClaimData :=
  { insured_id_number := some "1234567890A"
    patient_last_name := some "Doe"
    patient_first_name := some "John"
    patient_dob := some "01 15 1980"
    patient_sex := some "M"
    icd_indicator := some .icd10 }

/-- C3 counterexample: constructing a claim without supplying the
`service_lines` key succeeds and yields a claim with zero service lines,
because the v1-style `validate_service_lines` validator does not run on the
default value under pydantic v2.  So a claim with fewer than one service line
can exist. -/
theorem claim_zero_service_lines_counterexample :
    exceptOk (mkCMS1500Claim minimal_claim_data) = true
    ∧ (mkCMS1500Claim minimal_claim_data).map (fun c => c.service_lines) = .ok [] := by
  constructor <;> rfl

/-- C3 amended: an explicitly supplied `service_lines` list that is empty or
longer than six entries is rejected at construction time; but an omitted
`service_lines` key bypasses the validator and produces a claim with an empty
list. -/
theorem mk_claim_rejects_explicit_bad_lines (d : ClaimData) (ls : List ServiceLineInfo)
    (hsl : d.service_lines = some ls) (hbad : ls = [] ∨ 6 < ls.length) :
    exceptOk (mkCMS1500Claim d) = false := by
  have hmem : ∃ s, s ∈ claimDataErrors d := by
    unfold claimDataErrors
    rw [hsl]
    rcases hbad with h | h
    · subst h
      exact ⟨"At least one service line required", by simp⟩
    · have hne : ls ≠ [] := by
        intro hc
        subst hc
        simp at h
      exact ⟨"service_lines: max_items 6", by simp [h, hne]⟩
  obtain ⟨s, hs⟩ := hmem
  rcases h : claimDataErrors d with _ | ⟨e, rest⟩
  · rw [h] at hs
    cases hs
  · simp [mkCMS1500Claim, h, exceptOk]

/-- Witness for C3 (amended) at an explicitly empty service-line list. -/
theorem mk_claim_rejects_explicit_bad_lines_witness :
    exceptOk (mkCMS1500Claim
      { minimal_claim_data with service_lines := some [] }) = false :=
  mk_claim_rejects_explicit_bad_lines
    { minimal_claim_data with service_lines := some [] } [] rfl (Or.inl rfl)

/-- The service line of Scenario 5: diagnosis pointer Z. -/
def lineZ : ServiceLineInfo :=
  { date_from := "01 15 2024"
    place_of_service := "11"
    cpt_hcpcs := "99214"
    diagnosis_pointer := "Z"
    charges := 100 }

/-- The Scenario 5 claim, built directly (the constructor refuses it): only
diagnosis slot A is filled and a second service line points at Z. -/
def claimZ : CMS1500Claim :=
  { valid_claim_fixture with
      diagnosis_b := none
      service_lines := [lineZ] }

/-- C4: the repository test (test_cms1500_rules.py, diagnosis-pointer test)
and the spec expect a service line with pointer Z to reach the Validator,
which then emits an error-severity finding about the undefined pointer; but
the `ServiceLineInfo` type validator already rejects the pointer Z at
construction time, so the scenario record cannot be built and the Validator
check — which would indeed emit the expected error, as the second conjunct
shows on the directly-assembled record — is unreachable for out-of-range
letters. -/
theorem pointer_Z_construction_bug :
    mkServiceLineInfo lineZ = .error ["Invalid diagnosis pointer: Z. Must be A-L."]
    ∧ check_diagnosis_pointers claimZ
        = [vmsg "24.1E" "error"
            "Line 1: Diagnosis pointer references empty diagnosis code" "CMS-24E-REF"]
    ∧ (vmsg "24.1E" "error"
        "Line 1: Diagnosis pointer references empty diagnosis code" "CMS-24E-REF")
        ∈ (validate claimZ).messages := by
  refine ⟨rfl, rfl, ?_⟩
  have hptr : check_diagnosis_pointers claimZ
      = [vmsg "24.1E" "error"
          "Line 1: Diagnosis pointer references empty diagnosis code" "CMS-24E-REF"] := rfl
  have hmem : (vmsg "24.1E" "error"
      "Line 1: Diagnosis pointer references empty diagnosis code" "CMS-24E-REF")
      ∈ check_diagnosis_pointers claimZ := by
    rw [hptr]
    exact List.mem_singleton.mpr rfl
  have hfold := (add_message_fold (all_checks claimZ) { valid := true }).1
  unfold validate
  rw [hfold]
  simp only [all_checks, List.mem_append]
  tauto

/-- `PatientInfo` from src/core/extraction.py. -/
structure PatientInfo where
  first_name : Option String := none
  middle_name : Option String := none
  last_name : Option String := none
  dob : Option String := none
  sex : Option String := none
  address : Option String := none
  city : Option String := none
  state : Option String := none
  zip_code : Option String := none
  phone : Option String := none
  marital_status : Option String := none
  employment_status : Option String := none
deriving Repr, DecidableEq

/-- `InsuranceInfo` from src/core/extraction.py. -/
structure InsuranceInfo where
  insurance_name : Option String := none
  plan_name : Option String := none
  policy_number : Option String := none
  group_number : Option String := none
  subscriber_name : Option String := none
  subscriber_relationship : Option String := none
  subscriber_dob : Option String := none
  insurance_address : Option String := none
  insurance_city : Option String := none
  insurance_state : Option String := none
  insurance_zip : Option String := none
  payer_id : Option String := none
deriving Repr, DecidableEq

/-- `ProviderInfo` from src/core/extraction.py. -/
structure ProviderInfo where
  provider_name : Option String := none
  provider_npi : Option String := none
  facility_name : Option String := none
  facility_npi : Option String := none
  facility_address : Option String := none
  facility_city : Option String := none
  facility_state : Option String := none
  facility_zip : Option String := none
  phone : Option String := none
  tax_id : Option String := none
  taxonomy_code : Option String := none
deriving Repr, DecidableEq

/-- `DiagnosisCode` from src/core/extraction.py. -/
structure DiagnosisCode where
  code : String
  description : Option String := none
  letter : Option Char := none
  confidence : ℚ := 1
  source_span : Option String := none
deriving Repr, DecidableEq

/-- `ExtractedData` from src/core/extraction.py. -/
structure ExtractedData where
  patient : Option PatientInfo := none
  insurance : Option InsuranceInfo := none
  provider : Option ProviderInfo := none
  diagnoses : List DiagnosisCode := []
  procedures : List ProcedureCode := []
  dates : List (String × String) := []
  amounts : List (String × ℚ) := []
  extraction_confidence : ℚ := 0
deriving Repr, DecidableEq

/-- Number of truthy fields in a list of optional strings. -/
def count_truthy (fields : List (Option String)) : ℕ :=
  (fields.filter truthyStr).length

/-- `DataExtractor._calculate_confidence`: critical-field score out of six
plus a code-count bonus capped at 0.2, the sum capped at 1. -/
def calculate_confidence (patient : PatientInfo) (insurance : InsuranceInfo)
    (provider : ProviderInfo) (diagnoses : List DiagnosisCode)
    (procedures : List ProcedureCode) : ℚ :=
  let patient_fields := count_truthy [patient.first_name, patient.last_name, patient.dob]
  let insurance_fields := count_truthy [insurance.insurance_name, insurance.policy_number]
  let provider_fields := count_truthy [provider.provider_npi]
  let filled_critical := patient_fields + insurance_fields + provider_fields
  let field_score := (filled_critical : ℚ) / 6
  let code_score := min (((diagnoses.length + procedures.length : ℕ) : ℚ) / 5) (2/10)
  min (field_score + code_score) 1

/-- `CodingResult` from src/core/coding.py. -/
structure CodingResult where
  diagnoses : List CodeSuggestion
  procedures : List CodeSuggestion
  mismatches : List CodeMismatch
  diagnosis_procedure_map : List (String × List String)
  diagnosis_letters : List (String × Char)
  overall_confidence : ℚ
deriving Repr, DecidableEq

/-- Dict key removal (Python `dict.pop`). -/
def dictRemove {κ α : Type} [DecidableEq κ] (m : List (κ × α)) (k : κ) : List (κ × α) :=
  match m with
  | [] => []
  | (k', v) :: rest => if k' = k then rest else (k', v) :: dictRemove rest k

/-- The rationale text chosen for an extracted diagnosis in
`_merge_diagnosis_suggestions`. -/
def dx_rationale (dx : DiagnosisCode) : String :=
  if truthyStr dx.source_span then "Found in source: " ++ dx.source_span.getD ""
  else if truthyStr dx.description then dx.description.getD ""
  else "Extracted from document"

/-- The suggestion built from one extracted diagnosis. -/
def dx_to_suggestion (dx : DiagnosisCode) : CodeSuggestion :=
  { code := dx.code
    code_type := "ICD-10"
    description := dx.description.getD ""
    rationale := dx_rationale dx
    confidence := dx.confidence
    source_text := dx.source_span }

/-- First loop of `_merge_diagnosis_suggestions`: dedupe extracted diagnoses
by code, preferring higher confidence, or a present description on ties. -/
def merge_dx_step1 (m : List (String × CodeSuggestion)) (dx : DiagnosisCode) :
    List (String × CodeSuggestion) :=
  let new_sugg := dx_to_suggestion dx
  match dictFind? m dx.code with
  | some old =>
      if old.confidence < new_sugg.confidence then dictInsert m dx.code new_sugg
      else if old.description = "" ∧ new_sugg.description ≠ "" then
        dictInsert m dx.code new_sugg
      else m
  | none => dictInsert m dx.code new_sugg

/-- Second loop of `_merge_diagnosis_suggestions`: a model suggestion for a
known code may upgrade confidence, description and rationale in place; an
unknown code is admitted only at confidence 0.6 or above. -/
def merge_dx_step2 (m : List (String × CodeSuggestion)) (s : CodeSuggestion) :
    List (String × CodeSuggestion) :=
  match dictFind? m s.code with
  | some old =>
      if old.confidence < s.confidence then
        let upd := { old with confidence := s.confidence }
        let upd := if s.description ≠ "" then { upd with description := s.description } else upd
        let upd := if s.rationale ≠ "" then { upd with rationale := s.rationale } else upd
        dictInsert m s.code upd
      else if old.description = "" ∧ s.description ≠ "" then
        dictInsert m s.code { old with description := s.description }
      else m
  | none => if 6/10 ≤ s.confidence then dictInsert m s.code s else m

/-- `MedicalCodingAssistant._merge_diagnosis_suggestions`: build the dedup
map, fold in the model suggestions, then emit extracted order first and
model-only extras after. -/
def merge_diagnosis_suggestions (existing : List DiagnosisCode)
    (llm_suggestions : List CodeSuggestion) : List CodeSuggestion :=
  let m := existing.foldl merge_dx_step1 []
  let m := llm_suggestions.foldl merge_dx_step2 m
  let pair := existing.foldl
    (fun (acc : List CodeSuggestion × List (String × CodeSuggestion)) dx =>
      match dictFind? acc.2 dx.code with
      | some sugg => (acc.1 ++ [sugg], dictRemove acc.2 dx.code)
      | none => acc) ([], m)
  pair.1 ++ pair.2.map Prod.snd

/-- The warning mismatch for a procedure with no linked diagnosis. -/
def warn_missing_diagnosis (code : String) : CodeMismatch :=
  { mismatch_type := "missing_diagnosis"
    severity := "warning"
    message := "Procedure " ++ code ++ " has no linked diagnosis codes"
    affected_codes := [code]
    suggestion := some "Link to a primary diagnosis or add missing diagnosis" }

/-- The info mismatch for a diagnosis with no linked procedure. -/
def info_diagnosis_without_procedure (code : String) : CodeMismatch :=
  { mismatch_type := "diagnosis_without_procedure"
    severity := "info"
    message := "Diagnosis " ++ code ++ " is not linked to any procedures"
    affected_codes := [code]
    suggestion := some "This may be acceptable for diagnosis-only claims" }

/-- The error mismatch for a duplicate diagnosis code. -/
def error_duplicate_code (code : String) : CodeMismatch :=
  { mismatch_type := "duplicate_code"
    severity := "error"
    message := "Duplicate diagnosis code: " ++ code
    affected_codes := [code]
    suggestion := some "Remove duplicate entries" }

/-- The duplicate-code scan of `_detect_mismatches` (a running seen set; a
code met again emits an error mismatch). -/
def dup_mismatches : List String → List String → List CodeMismatch
  | [], _ => []
  | code :: rest, seen =>
      if code ∈ seen then error_duplicate_code code :: dup_mismatches rest seen
      else dup_mismatches rest (code :: seen)

/-- `MedicalCodingAssistant._detect_mismatches` from src/core/coding.py. -/
def detect_mismatches (diagnoses procedures : List CodeSuggestion)
    (dx_proc_map : List (String × List String)) : List CodeMismatch :=
  (procedures.filterMap (fun proc =>
    if dx_proc_map.filter (fun entry => proc.code ∈ entry.2) = [] then
      some (warn_missing_diagnosis proc.code)
    else none))
  ++ (diagnoses.filterMap (fun dx =>
    if (match dictFind? dx_proc_map dx.code with
        | none => true
        | some l => l = []) then
      some (info_diagnosis_without_procedure dx.code)
    else none))
  ++ dup_mismatches (diagnoses.map CodeSuggestion.code) []

/-- `MedicalCodingAssistant.suggest_codes` on the deterministic path (LLM
disabled or failed, so both model-suggestion lists are empty). -/
def suggest_codes (existing_diagnoses : List DiagnosisCode)
    (existing_procedures : List ProcedureCode)
    (extraction_confidence : Option ℚ) : CodingResult :=
  let all_diagnoses := merge_diagnosis_suggestions existing_diagnoses []
  let all_procedures := merge_procedure_suggestions existing_procedures []
  let diagnosis_letters := assign_diagnosis_letters all_diagnoses
  let dx_proc_map := map_diagnoses_to_procedures all_diagnoses all_procedures
  let all_procedures := update_diagnosis_pointers all_procedures dx_proc_map diagnosis_letters
  let mismatches := detect_mismatches all_diagnoses all_procedures dx_proc_map
  { diagnoses := all_diagnoses
    procedures := all_procedures
    mismatches := mismatches
    diagnosis_procedure_map := dx_proc_map
    diagnosis_letters := diagnosis_letters
    overall_confidence :=
      calculate_overall_confidence all_diagnoses all_procedures mismatches
        extraction_confidence }

/-- Python `a or b` on two optional strings. -/
def pyOr (a b : Option String) : Option String :=
  if truthyStr a then a else b

/-- Python `str.split(sep)` on the character list: no collapsing, the empty
string yields one empty field. -/
def pySplitAux (sep : Char) : List Char → List (List Char)
  | [] => [[]]
  | c :: rest =>
      if c = sep then [] :: pySplitAux sep rest
      else
        match pySplitAux sep rest with
        | head :: tail => (c :: head) :: tail
        | [] => [[c]]

/-- Python `str.split(sep)`. -/
def pySplit (sep : Char) (s : String) : List String :=
  (pySplitAux sep s.toList).map String.mk

/-- Python `str.lower()` (ASCII case folding suffices for the relationship
keywords the generator compares). -/
def pyLower (s : String) : String :=
  String.mk (s.toList.map Char.toLower)

/-- `CMS1500Generator._map_patient_info`. -/
def map_patient_info (d : ClaimData) (p : PatientInfo) : ClaimData :=
  let d := if truthyStr p.last_name then { d with patient_last_name := p.last_name } else d
  let d := if truthyStr p.first_name then { d with patient_first_name := p.first_name } else d
  let d := if truthyStr p.middle_name then
      { d with patient_middle_initial := some (String.mk ((p.middle_name.getD "").toList.take 1)) }
    else d
  let d := if truthyStr p.dob then
      (match pySplit '-' (p.dob.getD "") with
       | [y, mo, da] => { d with patient_dob := some (mo ++ " " ++ da ++ " " ++ y) }
       | _ => d)
    else d
  let d := if truthyStr p.sex then { d with patient_sex := p.sex } else d
  let d := if truthyStr p.address then { d with patient_address := p.address } else d
  let d := if truthyStr p.city then { d with patient_city := p.city } else d
  let d := if truthyStr p.state then { d with patient_state := p.state } else d
  let d := if truthyStr p.zip_code then { d with patient_zip := p.zip_code } else d
  if truthyStr p.phone then { d with patient_phone := p.phone } else d

/-- `CMS1500Generator._map_insurance_info`. -/
def map_insurance_info (d : ClaimData) (ins : InsuranceInfo)
    (patient : Option PatientInfo) : ClaimData :=
  let d := if truthyStr ins.policy_number then
      { d with insured_id_number := ins.policy_number } else d
  let d := if truthyStr ins.subscriber_name then
      { d with insured_name := ins.subscriber_name } else d
  let relationship :=
    if truthyStr ins.subscriber_relationship then ins.subscriber_relationship.getD ""
    else "Self"
  let rl := pyLower relationship
  let d := { d with
    patient_relationship_self := some (rl == "self")
    patient_relationship_spouse := some (rl == "spouse")
    patient_relationship_child := some (rl == "child")
    patient_relationship_other := some (decide (rl ∉ ["self", "spouse", "child"])) }
  let d := if truthyStr ins.insurance_name then
      { d with insurance_plan_name := ins.insurance_name } else d
  let d := if truthyStr ins.group_number then
      { d with insured_policy_group := ins.group_number } else d
  match patient with
  | some p =>
      if rl == "self" then
        { d with
            insured_address := p.address
            insured_city := p.city
            insured_state := p.state
            insured_zip := p.zip_code
            insured_phone := p.phone }
      else d
  | none => d

/-- `CMS1500Generator._map_provider_info`. -/
def map_provider_info (d : ClaimData) (pr : ProviderInfo) : ClaimData :=
  let d := if truthyStr pr.provider_name then
      { d with referring_provider_name := pr.provider_name } else d
  let d := if truthyStr pr.provider_npi then
      { d with referring_provider_npi := pr.provider_npi } else d
  let d := if truthyStr pr.tax_id then
      (let tid := pr.tax_id.getD ""
       let d := { d with federal_tax_id := pr.tax_id }
       if tid.toList.contains '-' then
         match (pySplit '-' tid).length with
         | 3 => { d with tax_id_type_ssn := some true }
         | 2 => { d with tax_id_type_ein := some true }
         | _ => d
       else { d with tax_id_type_ein := some true })
    else d
  let d := if truthyStr pr.facility_name then
      { d with service_facility_name := pr.facility_name } else d
  let d := if truthyStr pr.facility_npi then
      { d with service_facility_npi := pr.facility_npi } else d
  let d := if truthyStr pr.facility_address then
      { d with service_facility_address := pr.facility_address } else d
  let d := if truthyStr pr.facility_city then
      { d with service_facility_city := pr.facility_city } else d
  let d := if truthyStr pr.facility_state then
      { d with service_facility_state := pr.facility_state } else d
  let d := if truthyStr pr.facility_zip then
      { d with service_facility_zip := pr.facility_zip } else d
  { d with
    billing_provider_name := pyOr pr.facility_name pr.provider_name
    billing_provider_npi := pyOr pr.facility_npi pr.provider_npi
    billing_provider_address := pr.facility_address
    billing_provider_city := pr.facility_city
    billing_provider_state := pr.facility_state
    billing_provider_zip := pr.facility_zip
    billing_provider_phone := pr.phone }

/-- Write the idx-th item-21 diagnosis slot. -/
def setDiagSlot (d : ClaimData) (idx : ℕ) (v : String) : ClaimData :=
  match idx with
  | 0 => { d with diagnosis_a := some v }
  | 1 => { d with diagnosis_b := some v }
  | 2 => { d with diagnosis_c := some v }
  | 3 => { d with diagnosis_d := some v }
  | 4 => { d with diagnosis_e := some v }
  | 5 => { d with diagnosis_f := some v }
  | 6 => { d with diagnosis_g := some v }
  | 7 => { d with diagnosis_h := some v }
  | 8 => { d with diagnosis_i := some v }
  | 9 => { d with diagnosis_j := some v }
  | 10 => { d with diagnosis_k := some v }
  | 11 => { d with diagnosis_l := some v }
  | _ => d

/-- `CMS1500Generator._map_diagnoses`: walk the letter map keys zipped with
the twelve slots and copy a key into its slot when a diagnosis with that code
exists and the key is truthy. -/
def map_diagnoses (d : ClaimData) (cr : CodingResult) : ClaimData :=
  let d := { d with icd_indicator := some ICDIndicator.icd10 }
  (((cr.diagnosis_letters.map Prod.fst).take 12).enum).foldl
    (fun d p =>
      if (cr.diagnoses.any (fun dx => dx.code == p.2)) && !(p.2 == "") then
        setDiagSlot d p.1 p.2
      else d) d

/-- One generated service line of `CMS1500Generator._map_service_lines`
(service date from the clock, office place of service, default charge). -/
def proc_to_line (today : String) (proc : CodeSuggestion) : ServiceLineInfo :=
  let dx_pointers := proc.metadata.diagnosis_pointers.getD []
  let pointer := if dx_pointers ≠ [] then String.mk dx_pointers else "A"
  let parts := pySplit '-' proc.code
  { date_from := today
    place_of_service := "11"
    cpt_hcpcs := parts.headD ""
    modifier1 := match parts with | _ :: m :: _ => some m | _ => none
    diagnosis_pointer := pointer
    charges := 100
    days_or_units := 1 }

/-- `CMS1500Generator._map_service_lines`: at most six lines, recomputed
total. -/
def map_service_lines (today : String) (d : ClaimData) (cr : CodingResult) : ClaimData :=
  let lines := (cr.procedures.take 6).map (proc_to_line today)
  let total := (lines.map (fun line => line.charges * (line.days_or_units : ℚ))).sum
  { d with service_lines := some lines, total_charge := some total }

/-- `CMS1500Generator.create_claim` on the extracted-data path (no explicit
overrides): build the claim-data dict through the four mapping passes,
default the ICD indicator, and run the pydantic constructor. -/
def create_claim (today : String) (extracted_data : Option ExtractedData)
    (coding_result : Option CodingResult) : Except (List String) CMS1500Claim :=
  let patient_info := match extracted_data with | some ed => ed.patient | none => none
  let insurance_info := match extracted_data with | some ed => ed.insurance | none => none
  let provider_info := match extracted_data with | some ed => ed.provider | none => none
  let d : ClaimData := {}
  let d := match patient_info with | some p => map_patient_info d p | none => d
  let d := match insurance_info with
    | some ins => map_insurance_info d ins patient_info
    | none => d
  let d := match provider_info with | some pr => map_provider_info d pr | none => d
  let d := match coding_result with
    | some cr => map_service_lines today (map_diagnoses d cr) cr
    | none => d
  let d := match d.icd_indicator with
    | none => { d with icd_indicator := some ICDIndicator.icd10 }
    | some _ => d
  mkCMS1500Claim d

/-- The extraction result of an empty document: pattern extraction finds
nothing, so the three info records are present but empty, the code lists are
empty and the confidence is the computed zero. -/
def empty_extracted_data : ExtractedData :=
  { patient := some {}
    insurance := some {}
    provider := some {}
    diagnoses := []
    procedures := []
    extraction_confidence := calculate_confidence {} {} {} [] [] }

/-- C2 counterexample: on the empty document the claim-construction step
fails (the pydantic constructor raises), contradicting the claim that it does
not raise. -/
theorem empty_document_claim_counterexample :
    exceptOk (create_claim "10 12 2026" (some empty_extracted_data)
      (some (suggest_codes [] [] (some 0)))) = false := by
  rfl

/-- C2 amended: on an empty document the extraction and coding stages finish
without aborting, producing an `ExtractedData` with confidence 0 and a
`CodingResult` with confidence 0 and no mismatches; but the claim-assembly
stage raises a construction error enumerating the missing required fields and
the empty service-line list, so no `Claim` is produced and the validator
never runs. -/
theorem empty_document_pipeline :
    calculate_confidence {} {} {} [] [] = 0
    ∧ (suggest_codes [] [] (some 0)).overall_confidence = 0
    ∧ (suggest_codes [] [] (some 0)).mismatches = []
    ∧ create_claim "10 12 2026" (some empty_extracted_data)
        (some (suggest_codes [] [] (some 0)))
      = .error ["insured_id_number: field required",
          "patient_last_name: field required",
          "patient_first_name: field required",
          "patient_dob: field required",
          "patient_sex: field required",
          "At least one service line required"] := by
  refine ⟨?_, rfl, rfl, ?_⟩
  · norm_num [calculate_confidence, count_truthy, truthyStr, min_def]
  · rfl

end MedVault
